import Mathlib

set_option maxRecDepth 100000

/-! Shallow embedding of the dmxdev demux device core
(drivers/media/dvb-core/dmxdev.c): event-queue reconciliation,
producer callbacks, sticky ring-buffer errors, section reads and the
filter configuration surface, together with proofs about them.

Kernel integers are modelled as `Nat`/`Int`.  Offsets and lengths in this
driver are `u32`/`int` values that stay far below `2^31` (they index ring
buffers), so no wraparound arithmetic is involved and plain `Nat`
arithmetic is faithful; `ssize_t` return codes are `Int` (negative errno).
-/

/-! ### Errno constants (values from the kernel uapi, used negated) -/

def EWOULDBLOCK : Int := 11
def EBUSY : Int := 16
def ENODEV : Int := 19
def EINVAL : Int := 22
def ENODATA : Int := 61
def EOVERFLOW : Int := 75
def ETIMEDOUT : Int := 110

/-! ### Constants from headers not present in the tree -/

/-- Modelled from the spec: the EventQueue is a "circular array of
FilterEvent of fixed size N (e.g. 32)" (§3); the constant itself lives in
the missing dmxdev header. -/
def DMX_EVENT_QUEUE_SIZE : Nat := 32

/-- Modelled from the spec: filter lifecycle states in their §3/§4.3 order
`Free → Allocated → Set → Go → Done | TimedOut`; the code compares them
with `<`/`>=`, so they are consecutive naturals. -/
def DMXDEV_STATE_FREE : Nat := 0
def DMXDEV_STATE_ALLOCATED : Nat := 1
def DMXDEV_STATE_SET : Nat := 2
def DMXDEV_STATE_GO : Nat := 3
def DMXDEV_STATE_DONE : Nat := 4
def DMXDEV_STATE_TIMEDOUT : Nat := 5

/-- Modelled from the spec: PES/TS filter output modes (§4.4 names the
decoder, payload-tap, TS-tap and TS-demux-tap outputs); the enum itself is
in the missing uapi header, encoded here as consecutive naturals. -/
def DMX_OUT_DECODER : Nat := 0
def DMX_OUT_TAP : Nat := 1
def DMX_OUT_TS_TAP : Nat := 2
def DMX_OUT_TSDEMUX_TAP : Nat := 3

/-- Modelled from the spec: buffer modes Internal/External (§6). -/
def DMX_BUFFER_MODE_INTERNAL : Nat := 0
def DMX_BUFFER_MODE_EXTERNAL : Nat := 1

/-- Modelled from the spec: TS output packet formats (§6,
`SetTsOutFormat(188|192[+head])`); consecutive naturals so that the
range check `fmt > DMX_TSP_FORMAT_192_HEAD || fmt < DMX_TSP_FORMAT_188`
of the code is expressible. -/
def DMX_TSP_FORMAT_188 : Nat := 0
def DMX_TSP_FORMAT_192_TAIL : Nat := 1
def DMX_TSP_FORMAT_192_HEAD : Nat := 2

/-- Modelled from the spec: event kinds are a bitmask-tagged union (§3
FilterEvent); the bit values live in the missing uapi header, here chosen
as distinct bits so mask tests behave as in the code. -/
def DMX_EVENT_NEW_PES : Nat := 0x1
def DMX_EVENT_NEW_SECTION : Nat := 0x2
def DMX_EVENT_NEW_REC_CHUNK : Nat := 0x4
def DMX_EVENT_NEW_PCR : Nat := 0x8
def DMX_EVENT_BUFFER_OVERFLOW : Nat := 0x10
def DMX_EVENT_SECTION_TIMEOUT : Nat := 0x20
def DMX_EVENT_SCRAMBLING_STATUS_CHANGE : Nat := 0x40
def DMX_EVENT_NEW_INDEX_ENTRY : Nat := 0x80
def DMX_EVENT_MARKER : Nat := 0x100
def DMX_EVENT_EOS : Nat := 0x200
def DMX_EVENT_NEW_ES_DATA : Nat := 0x400
def DMX_EVENT_SECTION_CRC_ERROR : Nat := 0x800

/-! ### Filter events (struct dmx_filter_event) -/

/-- Byte-range parameters of a data-bearing PES event
(struct dmx_pes_event_info). -/
structure dmx_pes_event_params where
  base_offset : Nat
  start_offset : Nat
  total_length : Nat
  actual_length : Nat
  deriving Repr, DecidableEq

/-- Byte-range parameters of a data-bearing section event
(struct dmx_section_event_info). -/
structure dmx_section_event_params where
  base_offset : Nat
  start_offset : Nat
  total_length : Nat
  actual_length : Nat
  deriving Repr, DecidableEq

/-- Parameters of a recording-chunk event (struct dmx_rec_chunk_info). -/
structure dmx_rec_chunk_event_params where
  offset : Nat
  size : Nat
  deriving Repr, DecidableEq

/-- A filter event (struct dmx_filter_event).  Payloads of the non-data
kinds are irrelevant to the properties below and are omitted. -/
inductive dmx_filter_event where
  | newPes (p : dmx_pes_event_params)
  | newSection (p : dmx_section_event_params)
  | newRecChunk (p : dmx_rec_chunk_event_params)
  | newPcr
  | bufferOverflow
  | sectionTimeout
  | scramblingStatusChange
  | newIndexEntry
  | marker
  | eos
  | newEsData
  | sectionCrcError
  deriving Repr, DecidableEq

/-- The `type` tag of an event, as the bitmask value the code tests
against `disable_mask`/`no_wakeup_mask`. -/
def dmx_event_type : dmx_filter_event → Nat
  | .newPes _ => DMX_EVENT_NEW_PES
  | .newSection _ => DMX_EVENT_NEW_SECTION
  | .newRecChunk _ => DMX_EVENT_NEW_REC_CHUNK
  | .newPcr => DMX_EVENT_NEW_PCR
  | .bufferOverflow => DMX_EVENT_BUFFER_OVERFLOW
  | .sectionTimeout => DMX_EVENT_SECTION_TIMEOUT
  | .scramblingStatusChange => DMX_EVENT_SCRAMBLING_STATUS_CHANGE
  | .newIndexEntry => DMX_EVENT_NEW_INDEX_ENTRY
  | .marker => DMX_EVENT_MARKER
  | .eos => DMX_EVENT_EOS
  | .newEsData => DMX_EVENT_NEW_ES_DATA
  | .sectionCrcError => DMX_EVENT_SECTION_CRC_ERROR

/-! ### Event queue state (struct dmxdev_events_queue) -/

/-- struct dmx_events_mask. -/
structure dmx_events_mask where
  disable_mask : Nat
  no_wakeup_mask : Nat
  wakeup_threshold : Nat
  deriving Repr, DecidableEq

/-- struct dmxdev_events_queue.  `queue` is the backing circular array,
always of length `DMX_EVENT_QUEUE_SIZE`. -/
structure dmxdev_events_queue where
  queue : List dmx_filter_event
  read_index : Nat
  write_index : Nat
  notified_index : Nat
  bytes_read_no_event : Nat
  current_event_data_size : Nat
  current_event_start_offset : Nat
  wakeup_events_counter : Nat
  event_mask : dmx_events_mask
  data_read_event_masked : Bool
  deriving Repr, DecidableEq

/-- dvb_dmxdev_advance_event_idx. -/
def dvb_dmxdev_advance_event_idx (index : Nat) : Nat :=
  if DMX_EVENT_QUEUE_SIZE ≤ index + 1 then 0 else index + 1

/-- dvb_dmxdev_events_is_full. -/
def dvb_dmxdev_events_is_full (events : dmxdev_events_queue) : Bool :=
  dvb_dmxdev_advance_event_idx events.write_index == events.read_index

/-- dvb_dmxdev_flush_events. -/
def dvb_dmxdev_flush_events (events : dmxdev_events_queue) :
    dmxdev_events_queue :=
  { events with
    read_index := 0, write_index := 0, notified_index := 0,
    bytes_read_no_event := 0, current_event_data_size := 0,
    wakeup_events_counter := 0 }

/-- dvb_dmxdev_update_pes_event.  The C function mutates the event and
returns the consumed length (0 when the event is only shrunk); modelled
as returning the pair.  `start_offset ≥ base_offset` holds for events
produced by the driver, so the `int start_delta` is the `Nat`
difference. -/
def dvb_dmxdev_update_pes_event (event : dmx_pes_event_params)
    (bytes_read : Nat) : Nat × dmx_pes_event_params :=
  if event.total_length ≤ bytes_read then
    (event.total_length, event)
  else
    let event := { event with total_length := event.total_length - bytes_read }
    let start_delta := event.start_offset - event.base_offset
    if bytes_read ≤ start_delta then
      (0, { event with base_offset := event.base_offset + bytes_read })
    else
      let start_delta := bytes_read - start_delta
      (0, { event with
            start_offset := event.start_offset + start_delta,
            actual_length := event.actual_length - start_delta,
            base_offset := event.start_offset + start_delta })

/-- dvb_dmxdev_update_section_event (same shape as the PES updater). -/
def dvb_dmxdev_update_section_event (event : dmx_section_event_params)
    (bytes_read : Nat) : Nat × dmx_section_event_params :=
  if event.total_length ≤ bytes_read then
    (event.total_length, event)
  else
    let event := { event with total_length := event.total_length - bytes_read }
    let start_delta := event.start_offset - event.base_offset
    if bytes_read ≤ start_delta then
      (0, { event with base_offset := event.base_offset + bytes_read })
    else
      let start_delta := bytes_read - start_delta
      (0, { event with
            start_offset := event.start_offset + start_delta,
            actual_length := event.actual_length - start_delta,
            base_offset := event.start_offset + start_delta })

/-- dvb_dmxdev_update_rec_event. -/
def dvb_dmxdev_update_rec_event (event : dmx_rec_chunk_event_params)
    (bytes_read : Nat) : Nat × dmx_rec_chunk_event_params :=
  if event.size ≤ bytes_read then
    (event.size, event)
  else
    (0, { event with size := event.size - bytes_read,
                     offset := event.offset + bytes_read })

/-- dvb_dmxdev_add_event.  Returns the C result (0 or -EOVERFLOW) and the
updated queue. -/
def dvb_dmxdev_add_event (events : dmxdev_events_queue)
    (event : dmx_filter_event) : Int × dmxdev_events_queue :=
  -- "Check if the event is disabled"
  if events.event_mask.disable_mask &&& dmx_event_type event ≠ 0 then
    (0, events)
  else
    -- "Check if we are adding an event that user already read its data"
    let reconciled : (Int × dmxdev_events_queue) ⊕
        (dmxdev_events_queue × dmx_filter_event) :=
      if events.bytes_read_no_event ≠ 0 then
        match event with
        | .newPes p =>
          let (res, p') :=
            dvb_dmxdev_update_pes_event p events.bytes_read_no_event
          if res ≠ 0 then
            Sum.inl (0, { events with
              bytes_read_no_event := events.bytes_read_no_event - res })
          else
            Sum.inr ({ events with bytes_read_no_event := 0 },
                     .newPes p')
        | .newSection p =>
          let (res, p') :=
            dvb_dmxdev_update_section_event p events.bytes_read_no_event
          if res ≠ 0 then
            Sum.inl (0, { events with
              bytes_read_no_event := events.bytes_read_no_event - res })
          else
            Sum.inr ({ events with bytes_read_no_event := 0 },
                     .newSection p')
        | .newRecChunk p =>
          let (res, p') :=
            dvb_dmxdev_update_rec_event p events.bytes_read_no_event
          if res ≠ 0 then
            Sum.inl (0, { events with
              bytes_read_no_event := events.bytes_read_no_event - res })
          else
            Sum.inr ({ events with bytes_read_no_event := 0 },
                     .newRecChunk p')
        | _ =>
          -- "data was read beyond the non-data event"
          Sum.inl (0, events)
      else
        Sum.inr (events, event)
    match reconciled with
    | .inl r => r
    | .inr (events, event) =>
      let new_write_index := dvb_dmxdev_advance_event_idx events.write_index
      if new_write_index = events.read_index then
        (-EOVERFLOW, events)
      else
        let events := { events with
          queue := events.queue.set events.write_index event,
          write_index := new_write_index }
        if events.event_mask.no_wakeup_mask &&& dmx_event_type event = 0 then
          (0, { events with
                wakeup_events_counter := events.wakeup_events_counter + 1 })
        else
          (0, events)

/-- dvb_dmxdev_remove_event.  Returns (result, popped event, queue). -/
def dvb_dmxdev_remove_event (events : dmxdev_events_queue) :
    Int × Option dmx_filter_event × dmxdev_events_queue :=
  if events.notified_index = events.write_index then
    (-ENODATA, none, events)
  else
    let event := events.queue.getD events.notified_index .eos
    let events := { events with
      notified_index := dvb_dmxdev_advance_event_idx events.notified_index }
    if events.event_mask.no_wakeup_mask &&& dmx_event_type event = 0 then
      (0, some event,
       { events with
         wakeup_events_counter := events.wakeup_events_counter - 1 })
    else
      (0, some event, events)

/-! ### Event-to-byte reconciliation (dvb_dmxdev_update_events) -/

/-- One dispatch of the per-kind updaters used by both while loops of
dvb_dmxdev_update_events: `none` for a non-data event, otherwise the
(consumed, updated event) pair. -/
def dvb_dmxdev_update_data_event (event : dmx_filter_event)
    (bytes_read : Nat) : Option (Nat × dmx_filter_event) :=
  match event with
  | .newPes p =>
    let (res, p') := dvb_dmxdev_update_pes_event p bytes_read
    some (res, .newPes p')
  | .newSection p =>
    let (res, p') := dvb_dmxdev_update_section_event p bytes_read
    some (res, .newSection p')
  | .newRecChunk p =>
    let (res, p') := dvb_dmxdev_update_rec_event p bytes_read
    some (res, .newRecChunk p')
  | _ => none

/-- First while loop of dvb_dmxdev_update_events: walk the events between
`read_index` and `notified_index`.  The loop advances `read_index` at most
`DMX_EVENT_QUEUE_SIZE` times before the indices meet, so that fuel is
sufficient; it is threaded explicitly because the measure involves the
circular distance of the indices. -/
def dvb_dmxdev_update_events_loop1 :
    Nat → dmxdev_events_queue → Nat → dmxdev_events_queue × Nat
  | 0, events, bytes_read => (events, bytes_read)
  | fuel + 1, events, bytes_read =>
    if events.read_index ≠ events.notified_index ∧ bytes_read ≠ 0 then
      let event := events.queue.getD events.read_index .eos
      match dvb_dmxdev_update_data_event event bytes_read with
      | some (res, event') =>
        if res ≠ 0 then
          dvb_dmxdev_update_events_loop1 fuel
            { events with
              read_index := dvb_dmxdev_advance_event_idx events.read_index }
            (bytes_read - res)
        else
          dvb_dmxdev_update_events_loop1 fuel
            { events with
              queue := events.queue.set events.read_index event' } 0
      | none =>
        -- "non-data event was already notified, no need to keep it"
        dvb_dmxdev_update_events_loop1 fuel
          { events with
            read_index := dvb_dmxdev_advance_event_idx events.read_index }
          bytes_read
    else
      (events, bytes_read)

/-- Second while loop of dvb_dmxdev_update_events: walk the not yet
notified events between `notified_index` and `write_index`, dragging
`read_index` along. -/
def dvb_dmxdev_update_events_loop2 :
    Nat → dmxdev_events_queue → Nat → dmxdev_events_queue × Nat
  | 0, events, bytes_read => (events, bytes_read)
  | fuel + 1, events, bytes_read =>
    if events.notified_index ≠ events.write_index ∧ bytes_read ≠ 0 then
      let event := events.queue.getD events.notified_index .eos
      let stepped : dmxdev_events_queue × Nat :=
        match dvb_dmxdev_update_data_event event bytes_read with
        | some (res, event') =>
          if res ≠ 0 then
            let events := { events with
              notified_index :=
                dvb_dmxdev_advance_event_idx events.notified_index }
            let events :=
              if events.event_mask.no_wakeup_mask &&& dmx_event_type event
                  = 0 then
                { events with
                  wakeup_events_counter := events.wakeup_events_counter - 1 }
              else events
            (events, bytes_read - res)
          else
            ({ events with
               queue := events.queue.set events.notified_index event' }, 0)
        | none =>
          let events := { events with
            notified_index :=
              dvb_dmxdev_advance_event_idx events.notified_index }
          let events :=
            if events.event_mask.no_wakeup_mask &&& dmx_event_type event
                = 0 then
              { events with
                wakeup_events_counter := events.wakeup_events_counter - 1 }
            else events
          (events, bytes_read)
      let events := { stepped.1 with read_index := stepped.1.notified_index }
      dvb_dmxdev_update_events_loop2 fuel events stepped.2
    else
      (events, bytes_read)

/-- dvb_dmxdev_update_events (always returns 0 in C; the queue is the
result).  Fuel `DMX_EVENT_QUEUE_SIZE + 1` bounds each walk: a circular
walk visits fewer than `DMX_EVENT_QUEUE_SIZE` live events before the
indices meet, plus one final shrink step. -/
def dvb_dmxdev_update_events (events : dmxdev_events_queue)
    (bytes_read : Nat) : dmxdev_events_queue :=
  if events.data_read_event_masked then
    events
  else
    let (events, bytes_read) :=
      dvb_dmxdev_update_events_loop1 (DMX_EVENT_QUEUE_SIZE + 1) events
        bytes_read
    let (events, bytes_read) :=
      dvb_dmxdev_update_events_loop2 (DMX_EVENT_QUEUE_SIZE + 1) events
        bytes_read
    if bytes_read ≠ 0 then
      { events with
        bytes_read_no_event := events.bytes_read_no_event + bytes_read }
    else
      events

/-! ### Ring buffer

Modelled from the spec: the RingBuffer (§3, §4.1) has capacity `size`,
cursors `pread`/`pwrite` in `[0, size)` that wrap, owned byte storage or
`none` when unmapped, and a sticky `error`; `avail` is the cursor
difference mod capacity and `free` complements it with one byte reserved
to keep "full" distinguishable from "empty" (§3 offers this variant).
The implementation file dvb_ringbuffer.c is not part of the tree. -/

structure dvb_ringbuffer where
  size : Nat
  pread : Nat
  pwrite : Nat
  data : Option (List Nat)
  error : Int
  deriving Repr, DecidableEq

/-- Modelled from the spec: `avail = (write_cursor - read_cursor) mod
capacity` (§3). -/
def dvb_ringbuffer_avail (rb : dvb_ringbuffer) : Nat :=
  (rb.pwrite + rb.size - rb.pread) % rb.size

/-- Modelled from the spec: free space with one byte reserved (§3). -/
def dvb_ringbuffer_free (rb : dvb_ringbuffer) : Nat :=
  let f := (rb.pread + rb.size - rb.pwrite) % rb.size
  if f = 0 then rb.size - 1 else f - 1

/-- Modelled from the spec: empty iff the cursors coincide. -/
def dvb_ringbuffer_empty (rb : dvb_ringbuffer) : Bool :=
  rb.pread == rb.pwrite

/-- The byte at logical offset `i` past the read cursor. -/
def dvb_ringbuffer_byte (rb : dvb_ringbuffer) (i : Nat) : Nat :=
  (rb.data.getD []).getD ((rb.pread + i) % rb.size) 0

/-- Modelled from the spec: consuming read of `n` bytes — returns the
bytes and advances the read cursor (dvb_ringbuffer_read_user with a
successful user copy). -/
def dvb_ringbuffer_read_user (rb : dvb_ringbuffer) (n : Nat) :
    List Nat × dvb_ringbuffer :=
  ((List.range n).map (dvb_ringbuffer_byte rb),
   { rb with pread := (rb.pread + n) % rb.size })

/-- DVB_RINGBUFFER_SKIP: advance the read cursor. -/
def DVB_RINGBUFFER_SKIP (rb : dvb_ringbuffer) (num : Nat) : dvb_ringbuffer :=
  { rb with pread := (rb.pread + num) % rb.size }

/-- DVB_RINGBUFFER_PUSH: advance the write cursor (bytes already
resident). -/
def DVB_RINGBUFFER_PUSH (rb : dvb_ringbuffer) (num : Nat) : dvb_ringbuffer :=
  { rb with pwrite := (rb.pwrite + num) % rb.size }

/-- Modelled from the spec: store `bytes` at the write cursor and advance
it (dvb_ringbuffer_write with space already checked by the caller). -/
def dvb_ringbuffer_write (rb : dvb_ringbuffer) (bytes : List Nat) :
    dvb_ringbuffer :=
  match rb.data with
  | none => rb
  | some stor =>
    let stor := (List.range bytes.length).foldl
      (fun s i => s.set ((rb.pwrite + i) % rb.size) (bytes.getD i 0)) stor
    { rb with data := some stor,
              pwrite := (rb.pwrite + bytes.length) % rb.size }

/-- Modelled from the spec: reset discards content (and the sticky error)
without flagging anything (dvb_ringbuffer_reset). -/
def dvb_ringbuffer_reset (rb : dvb_ringbuffer) : dvb_ringbuffer :=
  { rb with pread := 0, pwrite := 0, error := 0 }

/-- dvb_dmxdev_buffer_write (from the source): 0 on empty or unmapped
writes, -EOVERFLOW when the free space is short, otherwise write. -/
def dvb_dmxdev_buffer_write (buf : dvb_ringbuffer) (src : List Nat) :
    Int × dvb_ringbuffer :=
  if src.length = 0 then (0, buf)
  else if buf.data = none then (0, buf)
  else if dvb_ringbuffer_free buf < src.length then (-EOVERFLOW, buf)
  else ((src.length : Int), dvb_ringbuffer_write buf src)

/-! ### Blocking consumer read (dvb_dmxdev_buffer_read)

The C loop suspends on `wait_event_interruptible(src->queue,
dvb_dmxdev_check_data(filter, src))`.  Concurrency is resolved into an
explicit environment trace: while the reader sleeps, the producer side
may apply actions to the shared state one at a time; the wait returns as
soon as the wake condition holds, and an exhausted trace with the
condition still false is a reader blocked forever.  Signal interruption
(the -ERESTARTSYS paths) is not modelled. -/

/-- The state `dvb_dmxdev_check_data` inspects: the optional owning
filter's lifecycle state (`none` models a NULL filter pointer) and the
ring buffer. -/
structure ReadSt where
  fstate : Option Nat
  rb : dvb_ringbuffer
  deriving Repr, DecidableEq

/-- A producer-side action interleaved while the reader waits. -/
inductive EnvAct where
  | push (bytes : List Nat)
  | setErr (e : Int)
  | unmap
  | setState (s : Nat)
  deriving Repr, DecidableEq

/-- Apply one producer action (pushes use the overflow-checked
dvb_dmxdev_buffer_write, as all producers in this file do). -/
def applyEnv : EnvAct → ReadSt → ReadSt
  | .push bytes, st => { st with rb := (dvb_dmxdev_buffer_write st.rb bytes).2 }
  | .setErr e, st => { st with rb := { st.rb with error := e } }
  | .unmap, st => { st with rb := { st.rb with data := none } }
  | .setState s, st =>
    match st.fstate with
    | some _ => { st with fstate := some s }
    | none => st

/-- dvb_dmxdev_check_data: the wake condition of the read loop. -/
def dvb_dmxdev_check_data (st : ReadSt) : Bool :=
  st.rb.data = none || !dvb_ringbuffer_empty st.rb || st.rb.error != 0 ||
    (match st.fstate with
     | some s => s != DMXDEV_STATE_GO && s != DMXDEV_STATE_DONE
     | none => false)

/-- The `wait_event` of the read loop: consume producer actions until the
wake condition holds; `none` when the trace runs out first (the reader
sleeps forever). -/
def dmxdev_wait : List EnvAct → ReadSt → Option (ReadSt × List EnvAct)
  | env, st =>
    if dvb_dmxdev_check_data st then some (st, env)
    else
      match env with
      | [] => none
      | a :: rest => dmxdev_wait rest (applyEnv a st)

/-- Outcome of a read call: a returned `ssize_t` together with the bytes
copied to the caller, or a reader asleep with no wake-up in the trace. -/
inductive ReadOutcome where
  | ret (r : Int) (bytes : List Nat)
  | blocked (bytes : List Nat)
  deriving Repr, DecidableEq

/-- The final result expression of the read loop,
`return (count - todo) ? (count - todo) : ret;`. -/
def dmxdev_read_result (count todo : Nat) (ret : Int) : Int :=
  if count - todo ≠ 0 then ((count - todo : Nat) : Int) else ret

/-- The `for (todo = count; todo > 0; todo -= ret)` loop of
dvb_dmxdev_buffer_read.  Each pass that neither returns nor breaks reads
at least one byte, so `count + 1` fuel (supplied by the wrapper) always
suffices. -/
def dvb_dmxdev_buffer_read_loop :
    Nat → Bool → ReadSt → List EnvAct → Nat → Nat → Int → List Nat →
    ReadOutcome × ReadSt
  | 0, _, st, _, _, _, _, acc => (.blocked acc, st)
  | fuel + 1, non_blocking, st, env, todo, count, ret, acc =>
    if todo = 0 then
      (.ret (dmxdev_read_result count todo ret) acc, st)
    else if non_blocking ∧ dvb_ringbuffer_empty st.rb then
      (.ret (dmxdev_read_result count todo (-EWOULDBLOCK)) acc, st)
    else if st.fstate = some DMXDEV_STATE_DONE ∧
        dvb_ringbuffer_empty st.rb then
      (.ret (dmxdev_read_result count todo ret) acc, st)
    else
      match dmxdev_wait env st with
      | none => (.blocked acc, st)
      | some (st, env) =>
        if _h : ∃ s, st.fstate = some s ∧ s ≠ DMXDEV_STATE_GO ∧
            s ≠ DMXDEV_STATE_DONE then
          (.ret (-ENODEV) acc, st)
        else if st.rb.data = none then
          (.ret 0 acc, st)
        else if st.rb.error ≠ 0 then
          (.ret (dmxdev_read_result count todo st.rb.error) acc,
           { st with rb := { st.rb with error := 0 } })
        else
          let avail := min (dvb_ringbuffer_avail st.rb) todo
          let (bytes, rb) := dvb_ringbuffer_read_user st.rb avail
          dvb_dmxdev_buffer_read_loop fuel non_blocking { st with rb := rb }
            env (todo - avail) count (avail : Int) (acc ++ bytes)

/-- dvb_dmxdev_buffer_read. -/
def dvb_dmxdev_buffer_read (fstate : Option Nat) (rb : dvb_ringbuffer)
    (non_blocking : Bool) (count : Nat) (env : List EnvAct) :
    ReadOutcome × ReadSt :=
  if rb.data = none then
    (.ret 0 [], ⟨fstate, rb⟩)
  else if rb.error ≠ 0 then
    (.ret rb.error [], ⟨fstate, { rb with error := 0 }⟩)
  else
    dvb_dmxdev_buffer_read_loop (count + 1) non_blocking ⟨fstate, rb⟩ env
      count count 0 []

/-! ### The filter (the slice of struct dmxdev_filter the claims touch)

For `DMX_OUT_TS_TAP` output the data path aliases the device-wide DVR
buffer and DVR event queue; in this embedding `buffer`/`events` always
denote the pair the source selects for the given output, so the same
functions cover both aliases. -/

structure dmxdev_filter where
  state : Nat
  eos_state : Bool
  buffer : dvb_ringbuffer
  events : dmxdev_events_queue
  buffer_mode : Nat
  dmx_tsp_format : Nat
  pes_output : Nat
  pes_rec_chunk_size : Nat
  sec_timeout : Nat
  sec_oneshot : Bool
  todo : Int
  secheader : List Nat
  deriving Repr, DecidableEq

/-! ### Data release (DMX_RELEASE_DATA) -/

/-- dvb_dmxdev_release_data.  `dvb_dmxdev_notify_data_read` only forwards
the count to the demux engine and is out of scope. -/
def dvb_dmxdev_release_data (f : dmxdev_filter) (bytes_count : Nat) :
    Int × dmxdev_filter :=
  if f.buffer.data = none then
    (-EINVAL, f)
  else if bytes_count = 0 then
    (0, f)
  else if dvb_ringbuffer_avail f.buffer < bytes_count then
    (-EINVAL, f)
  else
    (0, { f with
          buffer := DVB_RINGBUFFER_SKIP f.buffer bytes_count,
          events := dvb_dmxdev_update_events f.events bytes_count })

/-- dvb_dvr_release_data: the DVR output variant, keyed on the device
file's access mode and operating on the device's DVR buffer and DVR
output event queue. -/
def dvb_dvr_release_data (rdonly : Bool) (dvr_buffer : dvb_ringbuffer)
    (dvr_output_events : dmxdev_events_queue) (bytes_count : Nat) :
    Int × dvb_ringbuffer × dmxdev_events_queue :=
  if ¬rdonly then
    (-EINVAL, dvr_buffer, dvr_output_events)
  else if bytes_count = 0 then
    (0, dvr_buffer, dvr_output_events)
  else if dvb_ringbuffer_avail dvr_buffer < bytes_count then
    (-EINVAL, dvr_buffer, dvr_output_events)
  else
    (0, DVB_RINGBUFFER_SKIP dvr_buffer bytes_count,
     dvb_dmxdev_update_events dvr_output_events bytes_count)

/-! ### Mutating configuration calls -/

/-- dvb_dmxdev_set_buffer_size.  `vmalloc_user` is modelled as a
succeeding allocation of zeroed storage (the -ENOMEM path is an external
allocator failure). -/
def dvb_dmxdev_set_buffer_size (f : dmxdev_filter) (size : Nat) :
    Int × dmxdev_filter :=
  if f.buffer.size = size then
    (0, f)
  else if size = 0 ∨ f.buffer_mode = DMX_BUFFER_MODE_EXTERNAL then
    (-EINVAL, f)
  else if DMXDEV_STATE_GO ≤ f.state then
    (-EBUSY, f)
  else
    let buf := { f.buffer with data := some (List.replicate size 0),
                               size := size }
    -- "reset and not flush in case the buffer shrinks"
    (0, { f with buffer := dvb_ringbuffer_reset buf })

/-- dvb_dmxdev_set_tsp_out_format. -/
def dvb_dmxdev_set_tsp_out_format (f : dmxdev_filter)
    (dmx_tsp_format : Nat) : Int × dmxdev_filter :=
  if DMXDEV_STATE_GO ≤ f.state then
    (-EBUSY, f)
  else if DMX_TSP_FORMAT_192_HEAD < dmx_tsp_format ∨
      dmx_tsp_format < DMX_TSP_FORMAT_188 then
    (-EINVAL, f)
  else
    (0, { f with dmx_tsp_format := dmx_tsp_format })

/-- dvb_dmxdev_set_event_mask.  The C function also sanitizes the
caller's mask in place; the stored mask is what matters here.  The
non-NULL pointer check is vacuous in the embedding. -/
def dvb_dmxdev_set_event_mask (f : dmxdev_filter)
    (event_mask : dmx_events_mask) : Int × dmxdev_filter :=
  if DMX_EVENT_QUEUE_SIZE ≤ event_mask.wakeup_threshold then
    (-EINVAL, f)
  else if f.state = DMXDEV_STATE_GO then
    (-EBUSY, f)
  else
    -- "Overflow event is not allowed to be masked."
    let event_mask := { event_mask with
      disable_mask :=
        event_mask.disable_mask &&& (0xffffffff ^^^ DMX_EVENT_BUFFER_OVERFLOW),
      no_wakeup_mask :=
        event_mask.no_wakeup_mask &&&
          (0xffffffff ^^^ DMX_EVENT_BUFFER_OVERFLOW) }
    (0, { f with events := { f.events with event_mask := event_mask } })

/-! ### Section filter timeout -/

/-- dvb_dmxdev_filter_timeout: the timer handler. -/
def dvb_dmxdev_filter_timeout (f : dmxdev_filter) : dmxdev_filter :=
  let f := { f with buffer := { f.buffer with error := -ETIMEDOUT } }
  let f := { f with state := DMXDEV_STATE_TIMEDOUT }
  { f with events := (dvb_dmxdev_add_event f.events .sectionTimeout).2 }

/-- dvb_dmxdev_filter_timer: `del_timer` then re-arm iff the section
filter's timeout parameter is nonzero.  Jiffies arithmetic is out of
scope; the returned flag is whether `add_timer` is called, i.e. whether
`dvb_dmxdev_filter_timeout` will later fire.  `dvb_dmxdev_filter_start`
invokes this right after a successful section feed start. -/
def dvb_dmxdev_filter_timer (f : dmxdev_filter) : Bool :=
  f.sec_timeout ≠ 0

/-! ### Producer callbacks -/

/-- Status enum of the structured data-ready descriptor
(enum dmx_success in the engine interface). -/
inductive dmx_status where
  | DMX_OK
  | DMX_OK_PES_END
  | DMX_OK_PCR
  | DMX_OK_EOS
  | DMX_OK_MARKER
  | DMX_OK_SCRAMBLING_STATUS
  | DMX_OK_IDX
  | DMX_OK_DECODER_BUF
  | DMX_OVERRUN_ERROR
  | DMX_CRC_ERROR
  | DMX_MISSED_ERROR
  deriving Repr, DecidableEq

/-- struct dmx_data_ready, with the payload fields the claims touch. -/
structure dmx_data_ready where
  status : dmx_status
  data_length : Nat
  pes_end_start_gap : Nat
  pes_end_actual_length : Nat
  deriving Repr, DecidableEq

/-- dvb_dmxdev_section_callback (the two-segment write callback of a
section feed).  The vb2/mmap streaming branch is external and modelled as
not streaming; `none` buffers model NULL segment pointers; `del_timer` is
the timer model's disarm.  Returns the callback's result for the
engine. -/
def dvb_dmxdev_section_callback (f : dmxdev_filter)
    (buffer1 buffer2 : Option (List Nat)) : Int × dmxdev_filter :=
  let buffer1_len := (buffer1.getD []).length
  let buffer2_len := (buffer2.getD []).length
  if f.buffer.error ≠ 0 then
    (0, f)
  else if f.buffer.error ≠ 0 ∨ f.state ≠ DMXDEV_STATE_GO ∨ f.eos_state then
    (0, f)
  -- "Discard section data if event cannot be notified"
  else if f.events.event_mask.disable_mask &&& DMX_EVENT_NEW_SECTION = 0 ∧
      dvb_dmxdev_events_is_full f.events then
    (0, f)
  else if buffer1_len + buffer2_len = 0 then
    if buffer1 = none ∧ buffer2 = none then
      -- "Section was dropped due to CRC error"
      (0, { f with
            events := (dvb_dmxdev_add_event f.events .sectionCrcError).2 })
    else
      (0, f)
  else
    let base_offset := f.buffer.pwrite
    let start_offset := f.buffer.pwrite
    -- "Verify output buffer has sufficient space, or report overflow"
    if dvb_ringbuffer_free f.buffer < buffer1_len + buffer2_len then
      (0, { f with buffer := { f.buffer with error := -EOVERFLOW } })
    else
      let f := { f with
        buffer := (dvb_dmxdev_buffer_write f.buffer (buffer1.getD [])).2 }
      let f := { f with
        buffer := (dvb_dmxdev_buffer_write f.buffer (buffer2.getD [])).2 }
      let event : dmx_filter_event := .newSection
        { base_offset := base_offset, start_offset := start_offset,
          total_length := buffer1_len + buffer2_len,
          actual_length := buffer1_len + buffer2_len }
      let f := { f with events := (dvb_dmxdev_add_event f.events event).2 }
      if f.sec_oneshot then
        (0, { f with state := DMXDEV_STATE_DONE })
      else
        (0, f)

/-- dvb_dmxdev_ts_callback (the two-segment write callback of a TS feed).
The vb2/mmap branch is modelled as not streaming. -/
def dvb_dmxdev_ts_callback (f : dmxdev_filter)
    (buffer1 buffer2 : List Nat) : Int × dmxdev_filter :=
  if f.pes_output = DMX_OUT_DECODER ∨ f.state ≠ DMXDEV_STATE_GO ∨
      f.eos_state then
    (0, f)
  else if f.buffer.error ≠ 0 then
    (f.buffer.error, f)
  else
    let f :=
      if f.events.current_event_data_size = 0 then
        { f with events := { f.events with
            current_event_start_offset := f.buffer.pwrite } }
      else f
    -- "Verify output buffer has sufficient space, or report overflow"
    if dvb_ringbuffer_free f.buffer < buffer1.length + buffer2.length then
      (-EOVERFLOW, { f with buffer := { f.buffer with error := -EOVERFLOW } })
    else if buffer1.length + buffer2.length ≠ 0 then
      let f := { f with buffer := (dvb_dmxdev_buffer_write f.buffer buffer1).2 }
      let f := { f with buffer := (dvb_dmxdev_buffer_write f.buffer buffer2).2 }
      let f := { f with events := { f.events with
        current_event_data_size :=
          f.events.current_event_data_size + buffer1.length + buffer2.length } }
      if (f.pes_output = DMX_OUT_TS_TAP ∨ f.pes_output = DMX_OUT_TSDEMUX_TAP) ∧
          f.pes_rec_chunk_size ≤ f.events.current_event_data_size then
        let event : dmx_filter_event := .newRecChunk
          { offset := f.events.current_event_start_offset,
            size := f.events.current_event_data_size }
        let events := (dvb_dmxdev_add_event f.events event).2
        (0, { f with events := { events with current_event_data_size := 0 } })
      else
        (0, f)
    else
      (0, f)

/-- The `while (current_event_data_size >= rec_chunk_size)` flush at the
tail of dvb_dmxdev_ts_event_cb.  Each pass removes `rec_chunk_size ≥ 1`
bytes from the window, so window-many fuel suffices; a zero chunk size
cannot occur (dvb_dmxdev_filter_start_pes forces a positive multiple of
the packet size) and stops the loop here. -/
def dvb_dmxdev_ts_event_cb_chunk_loop :
    Nat → Nat → Nat → dmxdev_events_queue → dmxdev_events_queue
  | 0, _, _, events => events
  | fuel + 1, rec_chunk_size, buffer_size, events =>
    if rec_chunk_size ≠ 0 ∧ rec_chunk_size ≤ events.current_event_data_size
    then
      let event : dmx_filter_event := .newRecChunk
        { offset := events.current_event_start_offset,
          size := rec_chunk_size }
      let events := { events with
        current_event_data_size :=
          events.current_event_data_size - rec_chunk_size,
        current_event_start_offset :=
          (events.current_event_start_offset + rec_chunk_size) %
            buffer_size }
      dvb_dmxdev_ts_event_cb_chunk_loop fuel rec_chunk_size buffer_size
        (dvb_dmxdev_add_event events event).2
    else
      events

/-- dvb_dmxdev_ts_event_cb (the structured data-ready callback of a TS
feed). -/
def dvb_dmxdev_ts_event_cb (f : dmxdev_filter) (d : dmx_data_ready) :
    Int × dmxdev_filter :=
  if f.state ≠ DMXDEV_STATE_GO ∨ f.eos_state then
    (0, f)
  else if f.buffer.error = 0 ∧ d.status = .DMX_OVERRUN_ERROR then
    -- "Set buffer error to notify user overflow occurred"
    (0, { f with buffer := { f.buffer with error := -EOVERFLOW } })
  else if d.status = .DMX_OK_EOS then
    -- "Report partial recording chunk"
    let f :=
      if (f.pes_output = DMX_OUT_TS_TAP ∨
          f.pes_output = DMX_OUT_TSDEMUX_TAP) ∧
          f.events.current_event_data_size ≠ 0 then
        let event : dmx_filter_event := .newRecChunk
          { offset := f.events.current_event_start_offset,
            size := f.events.current_event_data_size }
        let events := { f.events with
          current_event_start_offset :=
            (f.events.current_event_start_offset +
              f.events.current_event_data_size) % f.buffer.size,
          current_event_data_size := 0 }
        { f with events := (dvb_dmxdev_add_event events event).2 }
      else f
    let f := { f with eos_state := true }
    (0, { f with events := (dvb_dmxdev_add_event f.events .eos).2 })
  else if d.status = .DMX_OK_MARKER then
    (0, { f with events := (dvb_dmxdev_add_event f.events .marker).2 })
  else if d.status = .DMX_OK_PCR then
    (0, { f with events := (dvb_dmxdev_add_event f.events .newPcr).2 })
  else if d.status = .DMX_OK_IDX then
    (0, { f with events := (dvb_dmxdev_add_event f.events .newIndexEntry).2 })
  else if d.status = .DMX_OK_SCRAMBLING_STATUS then
    (0, { f with
          events := (dvb_dmxdev_add_event f.events .scramblingStatusChange).2 })
  else if d.status = .DMX_OK_DECODER_BUF then
    (0, { f with events := (dvb_dmxdev_add_event f.events .newEsData).2 })
  else if f.pes_output = DMX_OUT_DECODER then
    (0, f)
  else if dvb_ringbuffer_free f.buffer < d.data_length then
    (0, f)
  else
    let f :=
      if f.pes_output = DMX_OUT_TAP then
        if d.status = .DMX_OK ∧ f.events.current_event_data_size = 0 then
          { f with events := { f.events with
              current_event_start_offset := f.buffer.pwrite } }
        else if d.status = .DMX_OK_PES_END then
          let event : dmx_filter_event := .newPes
            { base_offset := f.events.current_event_start_offset,
              start_offset :=
                (f.events.current_event_start_offset + d.pes_end_start_gap) %
                  f.buffer.size,
              total_length := f.events.current_event_data_size,
              actual_length := d.pes_end_actual_length }
          -- "Do not report zero length PES"
          let events :=
            if f.events.current_event_data_size ≠ 0 then
              (dvb_dmxdev_add_event f.events event).2
            else f.events
          { f with events := { events with current_event_data_size := 0 } }
        else f
      else if f.events.current_event_data_size = 0 then
        { f with events := { f.events with
            current_event_start_offset := f.buffer.pwrite } }
      else f
    let f := { f with
      events := { f.events with
        current_event_data_size :=
          f.events.current_event_data_size + d.data_length },
      buffer := DVB_RINGBUFFER_PUSH f.buffer d.data_length }
    if f.pes_output = DMX_OUT_TS_TAP ∨ f.pes_output = DMX_OUT_TSDEMUX_TAP then
      (0, { f with
            events := dvb_dmxdev_ts_event_cb_chunk_loop
              (f.events.current_event_data_size + 1) f.pes_rec_chunk_size
              f.buffer.size f.events })
    else
      (0, f)

/-! ### Section reads (dvb_dmxdev_read_sec) and the filter read entry -/

/-- Models `copy_from_user(dfil->secheader - dfil->todo, buf, result)`: write
`src` into the 3-byte header scratch starting at position `pos`. -/
def secheader_store : List Nat → Nat → List Nat → List Nat
  | hdr, _, [] => hdr
  | hdr, pos, b :: bs => secheader_store (hdr.set pos b) (pos + 1) bs

/-- The shared tail of dvb_dmxdev_read_sec: clamp the request to the
pending section length `todo`, read, and account.  `done` is what the
header block already delivered in this call. -/
def dvb_dmxdev_read_sec_body (f : dmxdev_filter) (non_blocking : Bool)
    (count : Nat) (done : Nat) : Int × dmxdev_filter :=
  let count := if f.todo < (count : Int) then f.todo.toNat else count
  match dvb_dmxdev_buffer_read (some f.state) f.buffer non_blocking count []
  with
  | (.ret result _, st) =>
    let f := { f with buffer := st.rb }
    if result < 0 then (result, f)
    else (result + (done : Int), { f with todo := f.todo - result })
  | (.blocked _, st) =>
    -- A reader asleep forever never returns; modelled as the signal
    -- interruption the kernel would need to end it.
    (-518, { f with buffer := st.rb })

/-- dvb_dmxdev_read_sec.  The producer is quiescent during the call (the
environment trace of the inner reads is empty). -/
def dvb_dmxdev_read_sec (f : dmxdev_filter) (non_blocking : Bool)
    (count : Nat) : Int × dmxdev_filter :=
  if f.todo ≤ 0 then
    let hcount : Nat := min (3 + f.todo).toNat count
    if hcount = 0 then (0, f)
    else
      match dvb_dmxdev_buffer_read (some f.state) f.buffer non_blocking
          hcount [] with
      | (.ret result bytes, st) =>
        let f := { f with buffer := st.rb }
        if result < 0 then (result, { f with todo := 0 })
        else
          let f := { f with
            secheader := secheader_store f.secheader (-f.todo).toNat bytes }
          let done := result.toNat
          let count := count - done
          let f := { f with todo := f.todo - result }
          if -3 < f.todo then ((done : Int), f)
          else
            let f := { f with todo :=
              (((f.secheader.getD 1 0) <<< 8 ||| f.secheader.getD 2 0) &&&
                0xfff : Nat) }
            if count = 0 then ((done : Int), f)
            else dvb_dmxdev_read_sec_body f non_blocking count done
      | (.blocked _, st) => (-518, { f with buffer := st.rb })
  else
    dvb_dmxdev_read_sec_body f non_blocking count 0

/-- dvb_demux_read: the read entry point of the demux device node.  The
-EOVERFLOW auto-flush branch (device-wide `overflow_auto_flush` policy)
is out of scope and not modelled; signal interruption (-ERESTARTSYS) is
likewise ignored. -/
def dvb_demux_read (f : dmxdev_filter) (is_sec : Bool) (non_blocking : Bool)
    (count : Nat) (env : List EnvAct) : Int × dmxdev_filter :=
  if f.eos_state ∧ dvb_ringbuffer_empty f.buffer then
    (0, f)
  else
    let (ret, f) :=
      if is_sec then dvb_dmxdev_read_sec f non_blocking count
      else
        match dvb_dmxdev_buffer_read (some f.state) f.buffer non_blocking
            count env with
        | (.ret r _, st) => (r, { f with buffer := st.rb })
        | (.blocked _, st) => (-518, { f with buffer := st.rb })
    if 0 < ret then
      (ret, { f with events := dvb_dmxdev_update_events f.events ret.toNat })
    else
      (ret, f)

/-- A consumer issuing `read(8)` calls until a call yields no bytes:
returns the total byte count delivered and the final state. -/
def sec_read_session : Nat → dmxdev_filter → Nat × dmxdev_filter
  | 0, f => (0, f)
  | fuel + 1, f =>
    let s := dvb_dmxdev_read_sec f true 8
    if s.1 ≤ 0 then (0, s.2)
    else
      ((sec_read_session fuel s.2).1 + s.1.toNat, (sec_read_session fuel s.2).2)

/-! ### Drivers and fixtures used by the statements -/

/-- Repeated reconciliation of one PES event, as dvb_dmxdev_update_events
performs it: feed the drained-byte chunks one call at a time until the
updater reports the event consumed (nonzero result), as the caller then
retires the event.  Returns `some consumed` at retirement (`none` if the
chunks run out first), the bytes attributed to the event so far, and the
event's final value. -/
def pes_drain : dmx_pes_event_params → List Nat →
    Option Nat × Nat × dmx_pes_event_params
  | event, [] => (none, 0, event)
  | event, c :: cs =>
    let r := dvb_dmxdev_update_pes_event event c
    if r.1 ≠ 0 then (some r.1, r.1, r.2)
    else
      ((pes_drain r.2 cs).1, c + (pes_drain r.2 cs).2.1,
       (pes_drain r.2 cs).2.2)

/-- An idle event queue: empty circular array, all cursors at 0, nothing
masked. -/
def evq0 : dmxdev_events_queue :=
  { queue := List.replicate DMX_EVENT_QUEUE_SIZE .eos
    read_index := 0, write_index := 0, notified_index := 0
    bytes_read_no_event := 0, current_event_data_size := 0
    current_event_start_offset := 0, wakeup_events_counter := 0
    event_mask := { disable_mask := 0, no_wakeup_mask := 0,
                    wakeup_threshold := 1 }
    data_read_event_masked := false }

/-- A mapped 16-byte ring buffer holding 5 bytes. -/
def rb16 : dvb_ringbuffer :=
  { size := 16, pread := 0, pwrite := 5,
    data := some (List.replicate 16 7), error := 0 }

/-- A baseline running filter over `rb16`/`evq0`. -/
def f16 : dmxdev_filter :=
  { state := DMXDEV_STATE_GO, eos_state := false, buffer := rb16,
    events := evq0, buffer_mode := DMX_BUFFER_MODE_INTERNAL,
    dmx_tsp_format := DMX_TSP_FORMAT_188, pes_output := DMX_OUT_TSDEMUX_TAP,
    pes_rec_chunk_size := 100, sec_timeout := 0, sec_oneshot := false,
    todo := 0, secheader := [0, 0, 0] }

/-- The section-read fixture of the spec's scenario: a 304-byte buffer
holding one 303-byte section whose 3-byte header is `[0, 0x01, 0x2C]`
(length bits 0x12C = 300) followed by 300 payload bytes. -/
def rb_sec : dvb_ringbuffer :=
  { size := 304, pread := 0, pwrite := 303,
    data := some (0 :: 1 :: 44 :: List.replicate 301 9), error := 0 }

/-- A started section filter over `rb_sec` with the header scratch
clean. -/
def f_sec : dmxdev_filter :=
  { f16 with buffer := rb_sec, pes_output := DMX_OUT_DECODER,
             todo := 0, secheader := [0, 0, 0] }

/-- The section filter of the C8 scenario after its header has been
parsed: read cursor at `p`, `t` section bytes still owed to the
caller. -/
def f_sec_at (p : Nat) (t : Int) : dmxdev_filter :=
  { f_sec with buffer := { rb_sec with pread := p }, todo := t,
               secheader := [0, 1, 44] }

/-- Number of stored events: the circular distance from `read_index` to
`write_index`. -/
def dmx_events_count (events : dmxdev_events_queue) : Nat :=
  (events.write_index + DMX_EVENT_QUEUE_SIZE - events.read_index) %
    DMX_EVENT_QUEUE_SIZE

/-- Recognize a recording-chunk event. -/
def is_rec_chunk : dmx_filter_event → Bool
  | .newRecChunk _ => true
  | _ => false

/-- An empty mapped 16-byte ring buffer. -/
def rb_empty16 : dvb_ringbuffer :=
  { size := 16, pread := 0, pwrite := 0,
    data := some (List.replicate 16 0), error := 0 }

/-- A full event queue (31 stored events) whose owner disabled Eos
events. -/
def evq_full_eos_masked : dmxdev_events_queue :=
  { evq0 with
    write_index := 31, read_index := 0, notified_index := 0,
    event_mask := { disable_mask := DMX_EVENT_EOS, no_wakeup_mask := 0,
                    wakeup_threshold := 1 } }

/-- A running section filter with a 100 ms timeout whose owner disabled
SectionTimeout events. -/
def f_sec_timeout_masked : dmxdev_filter :=
  { f16 with sec_timeout := 100,
             events := { evq0 with
               event_mask := { disable_mask := DMX_EVENT_SECTION_TIMEOUT,
                               no_wakeup_mask := 0,
                               wakeup_threshold := 1 } } }

/-- A filter that matched its one-shot section: state Done. -/
def f_done : dmxdev_filter := { f16 with state := DMXDEV_STATE_DONE }

/-- A valid event mask differing from the one `f_done` holds. -/
def em_alt : dmx_events_mask :=
  { disable_mask := DMX_EVENT_MARKER, no_wakeup_mask := 0,
    wakeup_threshold := 2 }

/-- A TS-demux-tap recording filter with a partially accumulated
100-byte chunk window holding 40 bytes, over a 200-byte buffer. -/
def f_rec40 : dmxdev_filter :=
  { f16 with
    buffer := { size := 200, pread := 0, pwrite := 40,
                data := some (List.replicate 200 3), error := 0 },
    events := { evq0 with current_event_data_size := 40,
                          current_event_start_offset := 0 } }

/-- Variant of `f_rec40` with NewRecordingChunk events disabled by the
owner. -/
def f_rec40_masked : dmxdev_filter :=
  { f_rec40 with
    events := { f_rec40.events with
      event_mask := { disable_mask := DMX_EVENT_NEW_REC_CHUNK,
                      no_wakeup_mask := 0, wakeup_threshold := 1 } } }

/-- An EOS data-ready descriptor. -/
def d_eos : dmx_data_ready :=
  { status := .DMX_OK_EOS, data_length := 0, pes_end_start_gap := 0,
    pes_end_actual_length := 0 }

/-- Variant of `f16` with its output buffer unmapped. -/
def f_unmapped : dmxdev_filter :=
  { f16 with buffer := { rb16 with data := none } }

/-- A full event queue (31 stored events) with nothing masked. -/
def evq_full : dmxdev_events_queue :=
  { evq0 with write_index := 31, read_index := 0, notified_index := 0 }

/-- A running section filter with a 100 ms timeout and nothing
masked. -/
def f_sec100 : dmxdev_filter := { f16 with sec_timeout := 100 }

/-- An overrun-status data-ready descriptor. -/
def d_overrun : dmx_data_ready :=
  { status := .DMX_OVERRUN_ERROR, data_length := 0, pes_end_start_gap := 0,
    pes_end_actual_length := 0 }

/-- An Ok data-ready descriptor announcing 12 resident bytes. -/
def d_ok12 : dmx_data_ready :=
  { status := .DMX_OK, data_length := 12, pes_end_start_gap := 0,
    pes_end_actual_length := 0 }

/-- A filter in EOS-terminal state over an empty buffer. -/
def f_eos_empty : dmxdev_filter :=
  { f16 with eos_state := true, buffer := rb_empty16 }

/-- A filter in EOS-terminal state with 5 bytes still buffered. -/
def f_eos_data : dmxdev_filter := { f16 with eos_state := true }

/-! ## Theorems -/

/-! ### C1: PES event reconciliation -/

/-- A reconcile call consuming the whole event returns its remaining
total length and leaves the event record untouched. -/
theorem update_pes_retire (e : dmx_pes_event_params) (n : Nat)
    (h : e.total_length ≤ n) :
    dvb_dmxdev_update_pes_event e n = (e.total_length, e) := by
  simp [dvb_dmxdev_update_pes_event, h]

/-- A reconcile call smaller than the event returns 0 and shrinks
`total_length` by exactly the consumed bytes. -/
theorem update_pes_shrink (e : dmx_pes_event_params) (n : Nat)
    (h : n < e.total_length) :
    (dvb_dmxdev_update_pes_event e n).1 = 0 ∧
    (dvb_dmxdev_update_pes_event e n).2.total_length =
      e.total_length - n := by
  unfold dvb_dmxdev_update_pes_event
  rw [if_neg (by omega)]
  by_cases h2 : n ≤ e.start_offset - e.base_offset <;> simp [h2]

/-- Accounting invariant of `pes_drain` over any positive chunking. -/
theorem pes_drain_spec (chunks : List Nat) :
    ∀ e : dmx_pes_event_params, (∀ c ∈ chunks, 0 < c) →
      0 < e.total_length →
      (((pes_drain e chunks).1 ≠ none) ↔ e.total_length ≤ chunks.sum) ∧
      ((pes_drain e chunks).1 ≠ none →
        (pes_drain e chunks).2.1 = e.total_length) ∧
      ((pes_drain e chunks).1 = none →
        (pes_drain e chunks).2.1 = chunks.sum ∧
        (pes_drain e chunks).2.2.total_length =
          e.total_length - chunks.sum) := by
  induction chunks with
  | nil =>
    intro e _ h0
    simp [pes_drain]
    omega
  | cons c cs ih =>
    intro e hpos h0
    by_cases hc : e.total_length ≤ c
    · rw [pes_drain, update_pes_retire e c hc]
      simp [h0.ne']
      have : c ≤ c + cs.sum := Nat.le_add_right _ _
      omega
    · have hlt : c < e.total_length := by omega
      obtain ⟨hres, htot⟩ := update_pes_shrink e c hlt
      have h0' : 0 < (dvb_dmxdev_update_pes_event e c).2.total_length := by
        omega
      have ihe := ih (dvb_dmxdev_update_pes_event e c).2
        (fun d hd => hpos d (List.mem_cons_of_mem _ hd)) h0'
      rw [pes_drain]
      simp only [hres, ne_eq, not_true_eq_false, if_false, ite_false,
        not_false_eq_true]
      refine ⟨?_, ?_, ?_⟩
      · constructor
        · intro hr
          have h1 := ihe.1.mp hr
          simp only [List.sum_cons]
          omega
        · intro hs
          refine ihe.1.mpr ?_
          simp only [List.sum_cons] at hs
          omega
      · intro hr
        have h1 := ihe.2.1 hr
        omega
      · intro hr
        obtain ⟨ha, ht⟩ := ihe.2.2 hr
        simp only [List.sum_cons]
        constructor <;> omega

/-- C1: for a PES data event with positive remaining length, a reconcile
call with `bytes_read` below `total_length` returns 0 (not retired) and
decreases `total_length` by exactly `bytes_read`; a call with
`bytes_read ≥ total_length` retires the event, returning a consumed
length equal to `total_length`; consequently, under any positive
chunking of the drained bytes, the event is retired exactly when the
chunks sum to at least `total_length`, the bytes attributed to it then
total exactly `total_length`, and otherwise it survives with
`total_length` reduced by the sum of all chunks. -/
theorem c1_pes_reconcile_converges (e : dmx_pes_event_params) (n : Nat)
    (h0 : 0 < e.total_length) :
    (n < e.total_length →
      (dvb_dmxdev_update_pes_event e n).1 = 0 ∧
      (dvb_dmxdev_update_pes_event e n).2.total_length =
        e.total_length - n) ∧
    (e.total_length ≤ n →
      dvb_dmxdev_update_pes_event e n = (e.total_length, e)) ∧
    (∀ chunks : List Nat, (∀ c ∈ chunks, 0 < c) →
      (((pes_drain e chunks).1 ≠ none) ↔ e.total_length ≤ chunks.sum) ∧
      ((pes_drain e chunks).1 ≠ none →
        (pes_drain e chunks).2.1 = e.total_length) ∧
      ((pes_drain e chunks).1 = none →
        (pes_drain e chunks).2.1 = chunks.sum ∧
        (pes_drain e chunks).2.2.total_length =
          e.total_length - chunks.sum)) :=
  ⟨fun h => update_pes_shrink e n h,
   fun h => update_pes_retire e n h,
   fun chunks hpos => pes_drain_spec chunks e hpos h0⟩

/-- Witness for C1 at the event `⟨0, 0, 5, 5⟩`: a 3-byte call shrinks 5
to 2, and the chunking [2, 2, 2] retires it with exactly 5 bytes
attributed. -/
theorem c1_pes_reconcile_converges_witness :
    (dvb_dmxdev_update_pes_event ⟨0, 0, 5, 5⟩ 3).2.total_length = 2 ∧
    (pes_drain ⟨0, 0, 5, 5⟩ [2, 2, 2]).2.1 = 5 :=
  ⟨((c1_pes_reconcile_converges ⟨0, 0, 5, 5⟩ 3 (by decide)).1
      (by decide)).2,
   ((c1_pes_reconcile_converges ⟨0, 0, 5, 5⟩ 0 (by decide)).2.2
      [2, 2, 2] (by decide)).2.1 (by decide)⟩

/-! ### C2: event queue capacity and full-queue add -/

/-- On a full queue, `add` stores nothing: the indices, the stored
events and the wakeup counter are all preserved, whatever path the call
takes. -/
theorem add_event_full_preserves (events : dmxdev_events_queue)
    (event : dmx_filter_event)
    (hfull : dvb_dmxdev_events_is_full events = true) :
    (dvb_dmxdev_add_event events event).2.write_index =
      events.write_index ∧
    (dvb_dmxdev_add_event events event).2.read_index =
      events.read_index ∧
    (dvb_dmxdev_add_event events event).2.notified_index =
      events.notified_index ∧
    (dvb_dmxdev_add_event events event).2.queue = events.queue ∧
    (dvb_dmxdev_add_event events event).2.wakeup_events_counter =
      events.wakeup_events_counter := by
  have hfull' : dvb_dmxdev_advance_event_idx events.write_index =
      events.read_index := by
    simpa [dvb_dmxdev_events_is_full] using hfull
  unfold dvb_dmxdev_add_event
  by_cases hm : events.event_mask.disable_mask &&& dmx_event_type event = 0
  · by_cases hb : events.bytes_read_no_event = 0
    · simp [hm, hb, hfull']
    · cases event <;> simp [hm, hb, hfull'] <;> split_ifs <;> simp [hfull']
  · simp [hm]

/-- On a full queue, an `add` that reaches the enqueue step (event not
masked out, no orphan read credit) reports -EOVERFLOW. -/
theorem add_event_full_overflows (events : dmxdev_events_queue)
    (event : dmx_filter_event)
    (hfull : dvb_dmxdev_events_is_full events = true)
    (hm : events.event_mask.disable_mask &&& dmx_event_type event = 0)
    (hb : events.bytes_read_no_event = 0) :
    (dvb_dmxdev_add_event events event).1 = -EOVERFLOW := by
  have hfull' : dvb_dmxdev_advance_event_idx events.write_index =
      events.read_index := by
    simpa [dvb_dmxdev_events_is_full] using hfull
  unfold dvb_dmxdev_add_event
  simp [hm, hb, hfull']

/-- C2 counterexample: on a full queue, `add` of an event whose type the
owner disabled returns 0 (silent drop), not -EOVERFLOW, contradicting
the claim that add on a full queue returns Overflow. -/
theorem c2_full_add_counterexample :
    dvb_dmxdev_events_is_full evq_full_eos_masked = true ∧
    (dvb_dmxdev_add_event evq_full_eos_masked .eos).1 = 0 ∧
    (dvb_dmxdev_add_event evq_full_eos_masked .eos).1 ≠ -EOVERFLOW := by
  decide

/-- C2 (amended): the stored-event count (circular distance from
`read_index` to `write_index`) never exceeds
`DMX_EVENT_QUEUE_SIZE - 1` after an `add`; on a full queue `add` leaves
`write_index`, `read_index`, `notified_index`, the stored events and
`wakeup_events_counter` unchanged, and returns -EOVERFLOW whenever the
event is not discarded earlier by the disable mask or by outstanding
`bytes_read_no_event` credit (those discards return 0 and store
nothing). -/
theorem c2_event_queue_capacity (events : dmxdev_events_queue)
    (event : dmx_filter_event)
    (hfull : dvb_dmxdev_events_is_full events = true) :
    dmx_events_count (dvb_dmxdev_add_event events event).2 ≤
      DMX_EVENT_QUEUE_SIZE - 1 ∧
    (dvb_dmxdev_add_event events event).2.write_index =
      events.write_index ∧
    (dvb_dmxdev_add_event events event).2.read_index =
      events.read_index ∧
    (dvb_dmxdev_add_event events event).2.notified_index =
      events.notified_index ∧
    (dvb_dmxdev_add_event events event).2.queue = events.queue ∧
    (dvb_dmxdev_add_event events event).2.wakeup_events_counter =
      events.wakeup_events_counter ∧
    ((events.event_mask.disable_mask &&& dmx_event_type event = 0 ∧
      events.bytes_read_no_event = 0) →
      (dvb_dmxdev_add_event events event).1 = -EOVERFLOW) := by
  obtain ⟨h1, h2, h3, h4, h5⟩ := add_event_full_preserves events event hfull
  refine ⟨?_, h1, h2, h3, h4, h5, fun ⟨hm, hb⟩ =>
    add_event_full_overflows events event hfull hm hb⟩
  have : dmx_events_count (dvb_dmxdev_add_event events event).2 <
      DMX_EVENT_QUEUE_SIZE :=
    Nat.mod_lt _ (by norm_num [DMX_EVENT_QUEUE_SIZE])
  omega

/-- Witness for C2 on a concrete full queue with nothing masked. -/
theorem c2_event_queue_capacity_witness :
    (dvb_dmxdev_add_event evq_full .eos).1 = -EOVERFLOW ∧
    (dvb_dmxdev_add_event evq_full .eos).2.queue = evq_full.queue :=
  ⟨(c2_event_queue_capacity evq_full .eos (by decide)).2.2.2.2.2.2
     ⟨by decide, by decide⟩,
   (c2_event_queue_capacity evq_full .eos (by decide)).2.2.2.2.1⟩

/-! ### C9: ReleaseData validation -/

/-- C9 counterexample: ReleaseData of 0 bytes on a filter whose output
buffer is unmapped returns -EINVAL — the zero no-op case is not reached,
contradicting the claim that a zero `bytes_count` always succeeds. -/
theorem c9_release_data_counterexample :
    (dvb_dmxdev_release_data f_unmapped 0).1 = -EINVAL ∧
    (dvb_dmxdev_release_data f_unmapped 0).1 ≠ 0 := by decide

/-- C9 (amended): on a filter buffer that is mapped, ReleaseData of 0
bytes is a successful no-op, a count above the available bytes fails
with -EINVAL leaving the filter untouched, and otherwise the read
cursor advances by exactly `bytes_count` and the event queue is
reconciled by exactly `bytes_count`; an unmapped filter buffer fails
with -EINVAL regardless of the count.  The DVR variant behaves the same
for a reader-mode file handle and fails with -EINVAL on a writer-mode
handle. -/
theorem c9_release_data_validation (f : dmxdev_filter) (n : Nat)
    (buf : dvb_ringbuffer) (ev : dmxdev_events_queue) :
    (f.buffer.data ≠ none →
      (n = 0 → dvb_dmxdev_release_data f n = (0, f)) ∧
      (dvb_ringbuffer_avail f.buffer < n →
        dvb_dmxdev_release_data f n = (-EINVAL, f)) ∧
      (n ≠ 0 → n ≤ dvb_ringbuffer_avail f.buffer →
        dvb_dmxdev_release_data f n =
          (0, { f with
                buffer := DVB_RINGBUFFER_SKIP f.buffer n,
                events := dvb_dmxdev_update_events f.events n }))) ∧
    (f.buffer.data = none →
      dvb_dmxdev_release_data f n = (-EINVAL, f)) ∧
    ((n = 0 → dvb_dvr_release_data true buf ev n = (0, buf, ev)) ∧
     (dvb_ringbuffer_avail buf < n →
       dvb_dvr_release_data true buf ev n = (-EINVAL, buf, ev)) ∧
     (n ≠ 0 → n ≤ dvb_ringbuffer_avail buf →
       dvb_dvr_release_data true buf ev n =
         (0, DVB_RINGBUFFER_SKIP buf n,
          dvb_dmxdev_update_events ev n))) ∧
    dvb_dvr_release_data false buf ev n = (-EINVAL, buf, ev) := by
  refine ⟨fun hd => ⟨fun h0 => ?_, fun hlt => ?_, fun hn hle => ?_⟩,
    fun hd => ?_, ⟨fun h0 => ?_, fun hlt => ?_, fun hn hle => ?_⟩, ?_⟩
  · simp [dvb_dmxdev_release_data, hd, h0]
  · have hn : n ≠ 0 := by omega
    simp [dvb_dmxdev_release_data, hd, hn, hlt]
  · simp [dvb_dmxdev_release_data, hd, hn, Nat.not_lt.mpr hle]
  · by_cases h0 : n = 0 <;> simp [dvb_dmxdev_release_data, hd, h0]
  · simp [dvb_dvr_release_data, h0]
  · have hn : n ≠ 0 := by omega
    simp [dvb_dvr_release_data, hn, hlt]
  · simp [dvb_dvr_release_data, hn, Nat.not_lt.mpr hle]
  · simp [dvb_dvr_release_data]

/-- Witness for C9 on `f16` (5 bytes available): count 3 advances the
cursor and reconciles by 3, count 0 is a no-op, count 9 is rejected;
likewise for the DVR pair. -/
theorem c9_release_data_validation_witness :
    dvb_dmxdev_release_data f16 3 =
      (0, { f16 with
            buffer := DVB_RINGBUFFER_SKIP f16.buffer 3,
            events := dvb_dmxdev_update_events f16.events 3 }) ∧
    dvb_dmxdev_release_data f16 0 = (0, f16) ∧
    dvb_dmxdev_release_data f16 9 = (-EINVAL, f16) ∧
    dvb_dvr_release_data true rb16 evq0 3 =
      (0, DVB_RINGBUFFER_SKIP rb16 3, dvb_dmxdev_update_events evq0 3) :=
  ⟨((c9_release_data_validation f16 3 rb16 evq0).1 (by decide)).2.2
     (by decide) (by decide),
   ((c9_release_data_validation f16 0 rb16 evq0).1 (by decide)).1 rfl,
   ((c9_release_data_validation f16 9 rb16 evq0).1 (by decide)).2.1
     (by decide),
   (c9_release_data_validation f16 3 rb16 evq0).2.2.1.2.2
     (by decide) (by decide)⟩

/-! ### C6: mutating configuration while running -/

/-- C6 counterexample: with the filter in state Done (≥ Go),
set-event-mask succeeds and applies the new mask instead of returning
-EBUSY; and set-buffer-size at state Go with the currently configured
size returns 0, not -EBUSY.  Both contradict the claim that these calls
return Busy for every state ≥ Go. -/
theorem c6_config_busy_counterexample :
    (dvb_dmxdev_set_event_mask f_done em_alt).1 = 0 ∧
    (dvb_dmxdev_set_event_mask f_done em_alt).1 ≠ -EBUSY ∧
    (dvb_dmxdev_set_event_mask f_done em_alt).2.events.event_mask ≠
      f_done.events.event_mask ∧
    DMXDEV_STATE_GO ≤ f16.state ∧
    (dvb_dmxdev_set_buffer_size f16 16).1 = 0 ∧
    (dvb_dmxdev_set_buffer_size f16 16).1 ≠ -EBUSY := by decide

/-- C6 (amended): once the filter state is Go or later, set-buffer-size
returns -EBUSY and changes nothing provided the requested size differs
from the current one, is nonzero and the buffer mode is internal (an
equal size returns 0 unchanged, earlier validation returns -EINVAL);
set-TS-output-format returns -EBUSY unconditionally; set-event-mask
returns -EBUSY only in state Go exactly — in Done or TimedOut a valid
mask is accepted and stored. -/
theorem c6_config_busy_once_running (f : dmxdev_filter) (size fmt : Nat)
    (em : dmx_events_mask) :
    (DMXDEV_STATE_GO ≤ f.state → f.buffer.size ≠ size → size ≠ 0 →
      f.buffer_mode ≠ DMX_BUFFER_MODE_EXTERNAL →
      dvb_dmxdev_set_buffer_size f size = (-EBUSY, f)) ∧
    (f.buffer.size = size → dvb_dmxdev_set_buffer_size f size = (0, f)) ∧
    (DMXDEV_STATE_GO ≤ f.state →
      dvb_dmxdev_set_tsp_out_format f fmt = (-EBUSY, f)) ∧
    (f.state = DMXDEV_STATE_GO →
      em.wakeup_threshold < DMX_EVENT_QUEUE_SIZE →
      dvb_dmxdev_set_event_mask f em = (-EBUSY, f)) ∧
    ((f.state = DMXDEV_STATE_DONE ∨ f.state = DMXDEV_STATE_TIMEDOUT) →
      em.wakeup_threshold < DMX_EVENT_QUEUE_SIZE →
      (dvb_dmxdev_set_event_mask f em).1 = 0) := by
  refine ⟨fun hgo hne h0 hmode => ?_, fun heq => ?_, fun hgo => ?_,
    fun hgo hthr => ?_, fun hst hthr => ?_⟩
  · simp [dvb_dmxdev_set_buffer_size, hne, h0, hmode, hgo]
  · simp [dvb_dmxdev_set_buffer_size, heq]
  · simp [dvb_dmxdev_set_tsp_out_format, hgo]
  · simp [dvb_dmxdev_set_event_mask, hgo, Nat.not_le.mpr hthr]
  · rcases hst with h | h <;>
      simp [dvb_dmxdev_set_event_mask, h, Nat.not_le.mpr hthr,
        DMXDEV_STATE_DONE, DMXDEV_STATE_TIMEDOUT, DMXDEV_STATE_GO]

/-- Witness for C6 on the running filter `f16` and the stopped filter
`f_done`. -/
theorem c6_config_busy_once_running_witness :
    dvb_dmxdev_set_buffer_size f16 32 = (-EBUSY, f16) ∧
    dvb_dmxdev_set_tsp_out_format f16 1 = (-EBUSY, f16) ∧
    dvb_dmxdev_set_event_mask f16 em_alt = (-EBUSY, f16) ∧
    (dvb_dmxdev_set_event_mask f_done em_alt).1 = 0 :=
  ⟨(c6_config_busy_once_running f16 32 1 em_alt).1 (by decide) (by decide)
     (by decide) (by decide),
   (c6_config_busy_once_running f16 32 1 em_alt).2.2.1 (by decide),
   (c6_config_busy_once_running f16 32 1 em_alt).2.2.2.1 (by decide)
     (by decide),
   (c6_config_busy_once_running f_done 32 1 em_alt).2.2.2.2
     (Or.inl (by decide)) (by decide)⟩

/-! ### C5: section filter timeout -/

/-- An `add` on a queue with room, the event's type enabled and no orphan
read credit enqueues the event at `write_index` and advances it,
touching nothing else (besides the wakeup counter). -/
theorem add_event_appends (q : dmxdev_events_queue) (e : dmx_filter_event)
    (hm : q.event_mask.disable_mask &&& dmx_event_type e = 0)
    (hb : q.bytes_read_no_event = 0)
    (hroom : dvb_dmxdev_advance_event_idx q.write_index ≠ q.read_index) :
    (dvb_dmxdev_add_event q e).1 = 0 ∧
    (dvb_dmxdev_add_event q e).2.queue = q.queue.set q.write_index e ∧
    (dvb_dmxdev_add_event q e).2.write_index =
      dvb_dmxdev_advance_event_idx q.write_index ∧
    (dvb_dmxdev_add_event q e).2.read_index = q.read_index ∧
    (dvb_dmxdev_add_event q e).2.notified_index = q.notified_index ∧
    (dvb_dmxdev_add_event q e).2.event_mask = q.event_mask ∧
    (dvb_dmxdev_add_event q e).2.bytes_read_no_event = 0 ∧
    (dvb_dmxdev_add_event q e).2.current_event_data_size =
      q.current_event_data_size ∧
    (dvb_dmxdev_add_event q e).2.current_event_start_offset =
      q.current_event_start_offset := by
  unfold dvb_dmxdev_add_event
  simp only [hm, hb, hroom, ite_false, ne_eq, not_true_eq_false,
    not_false_eq_true, if_false, if_neg]
  split_ifs <;> simp [hb]

/-- C5 counterexample: a section filter whose owner disabled
SectionTimeout events: when the timer fires, the state is forced to
TimedOut and the sticky -ETIMEDOUT error is set, but the event queue is
completely unchanged — no SectionTimeout event is added, contradicting
the claim. -/
theorem c5_timeout_counterexample :
    (dvb_dmxdev_filter_timeout f_sec_timeout_masked).events =
      f_sec_timeout_masked.events ∧
    (dvb_dmxdev_filter_timeout f_sec_timeout_masked).state =
      DMXDEV_STATE_TIMEDOUT ∧
    (dvb_dmxdev_filter_timeout f_sec_timeout_masked).buffer.error =
      -ETIMEDOUT := by decide

/-- C5 (amended): a section filter started with a nonzero timeout
parameter arms the timer; when it fires, the filter state becomes
TimedOut and the ring buffer's sticky error becomes -ETIMEDOUT, and a
SectionTimeout event is enqueued provided the SectionTimeout type is
not disabled by the event mask, there is no orphan read credit and the
event queue is not full (otherwise the event is dropped and only the
sticky error reports the timeout). -/
theorem c5_section_timeout_fires (f : dmxdev_filter)
    (ht : f.sec_timeout ≠ 0) :
    dvb_dmxdev_filter_timer f = true ∧
    (dvb_dmxdev_filter_timeout f).state = DMXDEV_STATE_TIMEDOUT ∧
    (dvb_dmxdev_filter_timeout f).buffer.error = -ETIMEDOUT ∧
    (f.events.event_mask.disable_mask &&& DMX_EVENT_SECTION_TIMEOUT = 0 →
      f.events.bytes_read_no_event = 0 →
      dvb_dmxdev_advance_event_idx f.events.write_index ≠
        f.events.read_index →
      (dvb_dmxdev_filter_timeout f).events.queue =
        f.events.queue.set f.events.write_index .sectionTimeout ∧
      (dvb_dmxdev_filter_timeout f).events.write_index =
        dvb_dmxdev_advance_event_idx f.events.write_index) := by
  refine ⟨by simp [dvb_dmxdev_filter_timer, ht], by
    simp [dvb_dmxdev_filter_timeout], by simp [dvb_dmxdev_filter_timeout],
    fun hm hb hroom => ?_⟩
  have h := add_event_appends f.events .sectionTimeout hm hb hroom
  simpa [dvb_dmxdev_filter_timeout] using ⟨h.2.1, h.2.2.1⟩

/-- Witness for C5 on `f_sec100`: timer armed; on fire the
SectionTimeout event lands in slot 0. -/
theorem c5_section_timeout_fires_witness :
    dvb_dmxdev_filter_timer f_sec100 = true ∧
    (dvb_dmxdev_filter_timeout f_sec100).events.queue =
      evq0.queue.set 0 .sectionTimeout :=
  ⟨(c5_section_timeout_fires f_sec100 (by decide)).1,
   ((c5_section_timeout_fires f_sec100 (by decide)).2.2.2 (by decide)
      (by decide) (by decide)).1⟩

/-! ### C4: producer-side overflow reporting -/

/-- C4 counterexample: the two-segment TS write callback, on an incoming
length above the buffer's free space, records the sticky overflow but
returns -EOVERFLOW to the demux engine — not success, contradicting the
claim that every producer callback returns success on overflow. -/
theorem c4_producer_overflow_counterexample :
    (dvb_dmxdev_ts_callback f16 (List.replicate 12 1) []).1 =
      -EOVERFLOW ∧
    (dvb_dmxdev_ts_callback f16 (List.replicate 12 1) []).1 ≠ 0 ∧
    (dvb_dmxdev_ts_callback f16 (List.replicate 12 1) []).2.buffer.error =
      -EOVERFLOW := by decide

/-- C4 (amended): when the incoming length exceeds the free space, the
section two-segment callback records the sticky overflow and returns 0;
the structured TS callback records the sticky overflow on OverrunError
status and returns 0, and on an oversized resident length it is a
no-op returning 0; but the TS two-segment callback, while also
recording the sticky overflow, returns -EOVERFLOW to the engine (and
stores nothing in every case). -/
theorem c4_producer_overflow_policy (f : dmxdev_filter)
    (b1 b2 : List Nat) (ob1 ob2 : Option (List Nat)) (d : dmx_data_ready) :
    (f.pes_output ≠ DMX_OUT_DECODER → f.state = DMXDEV_STATE_GO →
      ¬f.eos_state → f.buffer.error = 0 →
      dvb_ringbuffer_free f.buffer < b1.length + b2.length →
      (dvb_dmxdev_ts_callback f b1 b2).1 = -EOVERFLOW ∧
      (dvb_dmxdev_ts_callback f b1 b2).2.buffer.error = -EOVERFLOW ∧
      (dvb_dmxdev_ts_callback f b1 b2).2.buffer.pwrite =
        f.buffer.pwrite ∧
      (dvb_dmxdev_ts_callback f b1 b2).2.events.write_index =
        f.events.write_index ∧
      (dvb_dmxdev_ts_callback f b1 b2).2.events.queue =
        f.events.queue) ∧
    (f.state = DMXDEV_STATE_GO → ¬f.eos_state → f.buffer.error = 0 →
      dvb_dmxdev_events_is_full f.events = false →
      (ob1.getD []).length + (ob2.getD []).length ≠ 0 →
      dvb_ringbuffer_free f.buffer <
        (ob1.getD []).length + (ob2.getD []).length →
      dvb_dmxdev_section_callback f ob1 ob2 =
        (0, { f with buffer := { f.buffer with error := -EOVERFLOW } })) ∧
    (f.state = DMXDEV_STATE_GO → ¬f.eos_state → f.buffer.error = 0 →
      d.status = .DMX_OVERRUN_ERROR →
      dvb_dmxdev_ts_event_cb f d =
        (0, { f with buffer := { f.buffer with error := -EOVERFLOW } })) ∧
    (f.state = DMXDEV_STATE_GO → ¬f.eos_state →
      f.pes_output ≠ DMX_OUT_DECODER → d.status = .DMX_OK →
      dvb_ringbuffer_free f.buffer < d.data_length →
      dvb_dmxdev_ts_event_cb f d = (0, f)) := by
  refine ⟨fun hout hst heos herr hov => ?_,
    fun hst heos herr hfull hlen hov => ?_,
    fun hst heos herr hsta => ?_, fun hst heos hout hsta hov => ?_⟩
  · unfold dvb_dmxdev_ts_callback
    simp only [hout, hst, heos, herr]
    split_ifs <;> simp_all
  · unfold dvb_dmxdev_section_callback
    simp only [hst, heos, herr, hfull]
    split_ifs <;> simp_all
  · unfold dvb_dmxdev_ts_event_cb
    simp [hst, heos, herr, hsta]
  · unfold dvb_dmxdev_ts_event_cb
    simp [hst, heos, hout, hsta, Bool.not_eq_true f.eos_state ▸ heos, hov]

/-- Witness for C4 on `f16` (10 free bytes) with a 12-byte delivery. -/
theorem c4_producer_overflow_policy_witness :
    (dvb_dmxdev_ts_callback f16 (List.replicate 12 1) []).1 =
      -EOVERFLOW ∧
    dvb_dmxdev_section_callback f16 (some (List.replicate 12 1))
      (some []) =
      (0, { f16 with buffer := { rb16 with error := -EOVERFLOW } }) ∧
    dvb_dmxdev_ts_event_cb f16 d_overrun =
      (0, { f16 with buffer := { rb16 with error := -EOVERFLOW } }) ∧
    dvb_dmxdev_ts_event_cb f16 d_ok12 = (0, f16) :=
  ⟨((c4_producer_overflow_policy f16 (List.replicate 12 1) [] none none
       d_overrun).1 (by decide) (by decide) (by decide) (by decide)
       (by decide)).1,
   (c4_producer_overflow_policy f16 [] [] (some (List.replicate 12 1))
       (some []) d_overrun).2.1 (by decide) (by decide) (by decide)
       (by decide) (by decide) (by decide),
   (c4_producer_overflow_policy f16 [] [] none none d_overrun).2.2.1
     (by decide) (by decide) (by decide) (by decide),
   (c4_producer_overflow_policy f16 [] [] none none d_ok12).2.2.2
     (by decide) (by decide) (by decide) (by decide) (by decide)⟩

/-! ### C10: reads on an unmapped buffer -/

/-- C10: a consumer read on a ring buffer whose storage is unmapped
returns 0 (end-of-stream), not an error — both when the storage is
already gone at entry (any filter state, any trace) and when it is
unmapped while the reader was blocked on an empty buffer. -/
theorem c10_read_unmapped_returns_zero (fstate : Option Nat)
    (rb : dvb_ringbuffer) (nb : Bool) (count : Nat) (env : List EnvAct)
    (hd : rb.data = none) (rb2 : dvb_ringbuffer) (count2 : Nat)
    (hd2 : rb2.data ≠ none) (herr2 : rb2.error = 0)
    (hempty2 : dvb_ringbuffer_empty rb2 = true) (hc2 : count2 ≠ 0) :
    dvb_dmxdev_buffer_read fstate rb nb count env =
      (.ret 0 [], ⟨fstate, rb⟩) ∧
    dvb_dmxdev_buffer_read (some DMXDEV_STATE_GO) rb2 false count2
      [.unmap] =
      (.ret 0 [], ⟨some DMXDEV_STATE_GO, { rb2 with data := none }⟩) := by
  constructor
  · simp [dvb_dmxdev_buffer_read, hd]
  · rw [dvb_dmxdev_buffer_read]
    rw [if_neg (by simp [hd2]), if_neg (by simp [herr2])]
    obtain ⟨c, rfl⟩ : ∃ c, count2 = c + 1 :=
      ⟨count2 - 1, by omega⟩
    rw [dvb_dmxdev_buffer_read_loop]
    rw [if_neg (by omega)]
    rw [if_neg (by simp)]
    rw [if_neg (by simp [DMXDEV_STATE_GO, DMXDEV_STATE_DONE])]
    rw [dmxdev_wait]
    rw [if_neg (by simp [dvb_dmxdev_check_data, hd2, hempty2, herr2,
      DMXDEV_STATE_GO, DMXDEV_STATE_DONE])]
    rw [dmxdev_wait]
    rw [if_pos (by simp [dvb_dmxdev_check_data, applyEnv])]
    simp [applyEnv, DMXDEV_STATE_GO, DMXDEV_STATE_DONE]

/-- Witness for C10: unmapped 16-byte buffer read at entry, and a
blocked reader on `rb_empty16` woken by teardown. -/
theorem c10_read_unmapped_returns_zero_witness :
    dvb_dmxdev_buffer_read (some DMXDEV_STATE_GO)
      { rb16 with data := none } true 4 [] =
      (.ret 0 [], ⟨some DMXDEV_STATE_GO, { rb16 with data := none }⟩) ∧
    dvb_dmxdev_buffer_read (some DMXDEV_STATE_GO) rb_empty16 false 4
      [.unmap] =
      (.ret 0 [], ⟨some DMXDEV_STATE_GO,
        { rb_empty16 with data := none }⟩) :=
  ⟨(c10_read_unmapped_returns_zero (some DMXDEV_STATE_GO)
      { rb16 with data := none } true 4 [] rfl rb_empty16 4 (by decide)
      (by decide) (by decide) (by decide)).1,
   (c10_read_unmapped_returns_zero (some DMXDEV_STATE_GO)
      { rb16 with data := none } true 4 [] rfl rb_empty16 4 (by decide)
      (by decide) (by decide) (by decide)).2⟩

/-! ### C3: sticky error delivery -/

/-- C3 counterexample: `rb16` holds 5 bytes; a blocking 10-byte read
drains them, then blocks, and the producer sets the sticky -EOVERFLOW
while it waits.  The read observes the error and clears it but returns
the byte count 5 — the error code is returned to no reader (the next
read gets -EWOULDBLOCK), contradicting the claim that the first read
observing a sticky error returns that error code. -/
theorem c3_sticky_error_counterexample :
    dvb_dmxdev_buffer_read (some DMXDEV_STATE_GO) rb16 false 10
      [.setErr (-EOVERFLOW)] =
      (.ret 5 (List.replicate 5 7),
       ⟨some DMXDEV_STATE_GO, { rb16 with pread := 5, error := 0 }⟩) ∧
    dvb_dmxdev_buffer_read (some DMXDEV_STATE_GO)
      { rb16 with pread := 5, error := 0 } true 4 [] =
      (.ret (-EWOULDBLOCK) [],
       ⟨some DMXDEV_STATE_GO, { rb16 with pread := 5, error := 0 }⟩) := by
  decide

/-- C3 (amended): a sticky error observed at entry to a read (storage
mapped) is returned and cleared; an error set while the reader was
blocked with no bytes yet transferred in the call is likewise returned
and cleared; but when bytes were already transferred in the same call,
the call clears the error and returns the byte count instead of the
error code (the error is then reported to no reader); in every case a
second read with no new error does not see it again. -/
theorem c3_sticky_error_once (fstate : Option Nat) (rb : dvb_ringbuffer)
    (nb : Bool) (count : Nat) (env : List EnvAct) (e : Int)
    (hd : rb.data ≠ none) (herr : rb.error ≠ 0)
    (rb2 : dvb_ringbuffer) (count2 : Nat) (hd2 : rb2.data ≠ none)
    (herr2 : rb2.error = 0) (hempty2 : dvb_ringbuffer_empty rb2 = true)
    (hc2 : count2 ≠ 0) (he : e ≠ 0) :
    dvb_dmxdev_buffer_read fstate rb nb count env =
      (.ret rb.error [], ⟨fstate, { rb with error := 0 }⟩) ∧
    dvb_dmxdev_buffer_read (some DMXDEV_STATE_GO) rb2 false count2
      [.setErr e] =
      (.ret e [], ⟨some DMXDEV_STATE_GO, { rb2 with error := 0 }⟩) ∧
    dvb_dmxdev_buffer_read (some DMXDEV_STATE_GO) rb16 false 10
      [.setErr (-EOVERFLOW)] =
      (.ret 5 (List.replicate 5 7),
       ⟨some DMXDEV_STATE_GO, { rb16 with pread := 5, error := 0 }⟩) := by
  refine ⟨?_, ?_, by decide⟩
  · rw [dvb_dmxdev_buffer_read]
    rw [if_neg (by simp [hd]), if_pos herr]
  · rw [dvb_dmxdev_buffer_read]
    rw [if_neg (by simp [hd2]), if_neg (by simp [herr2])]
    obtain ⟨c, rfl⟩ : ∃ c, count2 = c + 1 := ⟨count2 - 1, by omega⟩
    rw [dvb_dmxdev_buffer_read_loop]
    rw [if_neg (by omega)]
    rw [if_neg (by simp)]
    rw [if_neg (by simp [DMXDEV_STATE_GO, DMXDEV_STATE_DONE])]
    rw [dmxdev_wait]
    rw [if_neg (by simp [dvb_dmxdev_check_data, hd2, hempty2, herr2,
      DMXDEV_STATE_GO, DMXDEV_STATE_DONE])]
    rw [dmxdev_wait]
    rw [if_pos (by simp [dvb_dmxdev_check_data, applyEnv, he])]
    simp [applyEnv, DMXDEV_STATE_GO, DMXDEV_STATE_DONE, hd2, he,
      dmxdev_read_result]

/-- Witness for C3: a buffer with sticky -EOVERFLOW at entry, and an
empty buffer whose reader is woken by a timeout error. -/
theorem c3_sticky_error_once_witness :
    dvb_dmxdev_buffer_read (some DMXDEV_STATE_GO)
      { rb16 with error := -EOVERFLOW } true 4 [] =
      (.ret (-EOVERFLOW) [], ⟨some DMXDEV_STATE_GO, rb16⟩) ∧
    dvb_dmxdev_buffer_read (some DMXDEV_STATE_GO) rb_empty16 false 4
      [.setErr (-ETIMEDOUT)] =
      (.ret (-ETIMEDOUT) [],
       ⟨some DMXDEV_STATE_GO, rb_empty16⟩) :=
  ⟨(c3_sticky_error_once (some DMXDEV_STATE_GO)
      { rb16 with error := -EOVERFLOW } true 4 [] (-ETIMEDOUT)
      (by decide) (by decide) rb_empty16 4 (by decide) (by decide)
      (by decide) (by decide) (by decide)).1,
   (c3_sticky_error_once (some DMXDEV_STATE_GO)
      { rb16 with error := -EOVERFLOW } true 4 [] (-ETIMEDOUT)
      (by decide) (by decide) rb_empty16 4 (by decide) (by decide)
      (by decide) (by decide) (by decide)).2.1⟩

/-! ### C7: EOS with a partial recording chunk -/

/-- C7 counterexample: a TS-demux-tap filter mid-accumulation (40 bytes
pending) whose owner disabled NewRecordingChunk events receives EOS: the
filter enters the EOS-terminal state and the Eos event is queued, but no
NewRecordingChunk event is enqueued anywhere, contradicting the claim
that the partial chunk event is enqueued before the Eos event. -/
theorem c7_eos_chunk_counterexample :
    ((dvb_dmxdev_ts_event_cb f_rec40_masked d_eos).2.events.queue.filter
      is_rec_chunk) = [] ∧
    (dvb_dmxdev_ts_event_cb f_rec40_masked d_eos).2.eos_state = true ∧
    (dvb_dmxdev_ts_event_cb f_rec40_masked d_eos).2.events.write_index =
      1 ∧
    f_rec40_masked.events.current_event_data_size = 40 := by decide

/-- The EOS arm of the structured TS callback: with a partial recording
window pending and both event kinds deliverable, the partial
NewRecordingChunk (carrying exactly the accumulated size) lands at
`write_index` and the Eos event right after it, and the filter becomes
EOS-terminal. -/
theorem ts_event_cb_eos_emits_partial_chunk
    (f : dmxdev_filter) (d : dmx_data_ready)
    (hst : f.state = DMXDEV_STATE_GO) (heos : ¬f.eos_state)
    (hout : f.pes_output = DMX_OUT_TSDEMUX_TAP ∨
            f.pes_output = DMX_OUT_TS_TAP)
    (hcur : f.events.current_event_data_size ≠ 0)
    (hsta : d.status = .DMX_OK_EOS)
    (hm1 : f.events.event_mask.disable_mask &&&
      DMX_EVENT_NEW_REC_CHUNK = 0)
    (hm2 : f.events.event_mask.disable_mask &&& DMX_EVENT_EOS = 0)
    (hb : f.events.bytes_read_no_event = 0)
    (hroom1 : dvb_dmxdev_advance_event_idx f.events.write_index ≠
      f.events.read_index)
    (hroom2 : dvb_dmxdev_advance_event_idx
        (dvb_dmxdev_advance_event_idx f.events.write_index) ≠
      f.events.read_index) :
    (dvb_dmxdev_ts_event_cb f d).1 = 0 ∧
    (dvb_dmxdev_ts_event_cb f d).2.eos_state = true ∧
    (dvb_dmxdev_ts_event_cb f d).2.events.queue =
      (f.events.queue.set f.events.write_index
        (.newRecChunk ⟨f.events.current_event_start_offset,
          f.events.current_event_data_size⟩)).set
        (dvb_dmxdev_advance_event_idx f.events.write_index) .eos ∧
    (dvb_dmxdev_ts_event_cb f d).2.events.write_index =
      dvb_dmxdev_advance_event_idx
        (dvb_dmxdev_advance_event_idx f.events.write_index) := by
  have hq1 := add_event_appends
    { f.events with
      current_event_start_offset :=
        (f.events.current_event_start_offset +
          f.events.current_event_data_size) % f.buffer.size,
      current_event_data_size := 0 }
    (.newRecChunk ⟨f.events.current_event_start_offset,
      f.events.current_event_data_size⟩)
    (by simpa [dmx_event_type] using hm1) hb hroom1
  have hq2 := add_event_appends _ .eos
    (by rw [hq1.2.2.2.2.2.1]; simpa [dmx_event_type] using hm2)
    hq1.2.2.2.2.2.2.1
    (by rw [hq1.2.2.1, hq1.2.2.2.1]; exact hroom2)
  unfold dvb_dmxdev_ts_event_cb
  rw [if_neg (by simp [hst, heos])]
  rw [if_neg (by simp [hsta])]
  rw [if_pos hsta]
  rw [if_pos ⟨by tauto, hcur⟩]
  refine ⟨rfl, rfl, ?_, ?_⟩
  · rw [hq2.2.1, hq1.2.1, hq1.2.2.1]
  · rw [hq2.2.2.1, hq1.2.2.1]

/-- Advancing the read cursor by the available byte count lands it on the
write cursor. -/
theorem ringbuffer_drain_lands_on_pwrite (p w n : Nat) (hp : p < n)
    (hw : w < n) : (p + (w + n - p) % n) % n = w := by
  rw [Nat.add_mod_mod]
  have h : p + (w + n - p) = w + n := by omega
  rw [h, Nat.add_mod_right, Nat.mod_eq_of_lt hw]

/-- A non-blocking read of at least the available bytes on a running
filter returns exactly the available bytes and leaves the buffer
empty. -/
theorem buffer_read_nb_drains (rb : dvb_ringbuffer) (count : Nat)
    (hd : rb.data ≠ none) (herr : rb.error = 0)
    (hav : dvb_ringbuffer_avail rb ≠ 0)
    (hcnt : dvb_ringbuffer_avail rb ≤ count)
    (hp : rb.pread < rb.size) (hw : rb.pwrite < rb.size) :
    dvb_dmxdev_buffer_read (some DMXDEV_STATE_GO) rb true count [] =
      (.ret (dvb_ringbuffer_avail rb : Int)
         ((List.range (dvb_ringbuffer_avail rb)).map
           (dvb_ringbuffer_byte rb)),
       ⟨some DMXDEV_STATE_GO, { rb with pread := rb.pwrite }⟩) := by
  have hne : rb.pread ≠ rb.pwrite := by
    intro h
    apply hav
    unfold dvb_ringbuffer_avail
    rw [h]
    have h2 : rb.pwrite + rb.size - rb.pwrite = rb.size := by omega
    rw [h2, Nat.mod_self]
  have hemptyF : dvb_ringbuffer_empty rb = false := by
    simp [dvb_ringbuffer_empty, hne]
  have hland : (rb.pread + dvb_ringbuffer_avail rb) % rb.size =
      rb.pwrite := by
    unfold dvb_ringbuffer_avail
    exact ringbuffer_drain_lands_on_pwrite rb.pread rb.pwrite rb.size hp hw
  obtain ⟨c, rfl⟩ : ∃ c, count = c + 1 := ⟨count - 1, by omega⟩
  rw [dvb_dmxdev_buffer_read]
  rw [if_neg (by simp [hd]), if_neg (by simp [herr])]
  rw [dvb_dmxdev_buffer_read_loop]
  rw [if_neg (by omega)]
  rw [if_neg (by simp [hemptyF])]
  rw [if_neg (by simp [DMXDEV_STATE_GO, DMXDEV_STATE_DONE])]
  rw [dmxdev_wait]
  rw [if_pos (by simp [dvb_dmxdev_check_data, hemptyF])]
  simp only []
  rw [dif_neg (by simp [DMXDEV_STATE_GO, DMXDEV_STATE_DONE])]
  rw [if_neg (by simp [hd])]
  rw [if_neg (by simp [herr])]
  simp only [dvb_ringbuffer_read_user, List.nil_append,
    Nat.min_eq_left hcnt, hland]
  by_cases hz : c + 1 - dvb_ringbuffer_avail rb = 0
  · rw [dvb_dmxdev_buffer_read_loop, if_pos hz]
    have ha' : dvb_ringbuffer_avail rb = c + 1 := by omega
    simp [dmxdev_read_result, hz, ha']
  · rw [dvb_dmxdev_buffer_read_loop, if_neg hz]
    rw [if_pos (by simp [dvb_ringbuffer_empty])]
    have ha' : c + 1 - (c + 1 - dvb_ringbuffer_avail rb) =
        dvb_ringbuffer_avail rb := by omega
    simp [dmxdev_read_result, ha', hav]

/-- A nonempty ring buffer has distinct cursors. -/
theorem ringbuffer_avail_ne_zero_not_empty (rb : dvb_ringbuffer)
    (hav : dvb_ringbuffer_avail rb ≠ 0) :
    dvb_ringbuffer_empty rb = false := by
  unfold dvb_ringbuffer_empty
  simp only [beq_eq_false_iff_ne, ne_eq]
  intro h
  apply hav
  unfold dvb_ringbuffer_avail
  rw [h]
  have h2 : rb.pwrite + rb.size - rb.pwrite = rb.size := by omega
  rw [h2, Nat.mod_self]

/-- In EOS-terminal state, a non-blocking read drains the remaining
bytes exactly and leaves the buffer empty; the event queue is reconciled
by the drained count. -/
theorem demux_read_eos_drains (g : dmxdev_filter) (count : Nat)
    (hst : g.state = DMXDEV_STATE_GO)
    (hd : g.buffer.data ≠ none) (herr : g.buffer.error = 0)
    (hav : dvb_ringbuffer_avail g.buffer ≠ 0)
    (hcnt : dvb_ringbuffer_avail g.buffer ≤ count)
    (hp : g.buffer.pread < g.buffer.size)
    (hw : g.buffer.pwrite < g.buffer.size) :
    dvb_demux_read g false true count [] =
      ((dvb_ringbuffer_avail g.buffer : Int),
       { g with
         buffer := { g.buffer with pread := g.buffer.pwrite },
         events := dvb_dmxdev_update_events g.events
           (dvb_ringbuffer_avail g.buffer) }) ∧
    dvb_ringbuffer_empty { g.buffer with pread := g.buffer.pwrite } =
      true := by
  have hread := buffer_read_nb_drains g.buffer count hd herr hav hcnt hp hw
  refine ⟨?_, by simp [dvb_ringbuffer_empty]⟩
  rw [dvb_demux_read,
    if_neg (by simp [ringbuffer_avail_ne_zero_not_empty g.buffer hav])]
  rw [hst, hread]
  simp [Nat.pos_of_ne_zero hav]

/-- C7 (amended): a recording filter (TS tap or TS-demux tap) in Go with
a partially accumulated chunk window that receives EOS enqueues a
NewRecordingChunk event carrying exactly the accumulated size
immediately before the Eos event — provided neither event kind is
disabled by the mask, there is no orphan read credit and the queue has
room for both (otherwise the dropped event is lost) — and becomes
EOS-terminal; once EOS-terminal, a read on an empty buffer returns 0, a
non-blocking read drains exactly the remaining buffered bytes leaving
the buffer empty, and both producer callbacks ignore further pushes,
leaving the filter unchanged. -/
theorem c7_eos_partial_chunk_then_drain
    (f : dmxdev_filter) (d : dmx_data_ready)
    (hst : f.state = DMXDEV_STATE_GO) (heos : ¬f.eos_state)
    (hout : f.pes_output = DMX_OUT_TSDEMUX_TAP ∨
            f.pes_output = DMX_OUT_TS_TAP)
    (hcur : f.events.current_event_data_size ≠ 0)
    (hsta : d.status = .DMX_OK_EOS)
    (hm1 : f.events.event_mask.disable_mask &&&
      DMX_EVENT_NEW_REC_CHUNK = 0)
    (hm2 : f.events.event_mask.disable_mask &&& DMX_EVENT_EOS = 0)
    (hb : f.events.bytes_read_no_event = 0)
    (hroom1 : dvb_dmxdev_advance_event_idx f.events.write_index ≠
      f.events.read_index)
    (hroom2 : dvb_dmxdev_advance_event_idx
        (dvb_dmxdev_advance_event_idx f.events.write_index) ≠
      f.events.read_index)
    (g : dmxdev_filter) (nb : Bool) (count : Nat) (env : List EnvAct)
    (hg : g.eos_state = true)
    (hgempty : dvb_ringbuffer_empty g.buffer = true)
    (g2 : dmxdev_filter) (count2 : Nat)
    (_hg2 : g2.eos_state = true) (hst2 : g2.state = DMXDEV_STATE_GO)
    (hd2 : g2.buffer.data ≠ none) (herr2 : g2.buffer.error = 0)
    (hav2 : dvb_ringbuffer_avail g2.buffer ≠ 0)
    (hcnt2 : dvb_ringbuffer_avail g2.buffer ≤ count2)
    (hp2 : g2.buffer.pread < g2.buffer.size)
    (hw2 : g2.buffer.pwrite < g2.buffer.size)
    (g3 : dmxdev_filter) (d3 : dmx_data_ready) (b1 b2 : List Nat)
    (hg3 : g3.eos_state = true) :
    (dvb_dmxdev_ts_event_cb f d).1 = 0 ∧
    (dvb_dmxdev_ts_event_cb f d).2.eos_state = true ∧
    (dvb_dmxdev_ts_event_cb f d).2.events.queue =
      (f.events.queue.set f.events.write_index
        (.newRecChunk ⟨f.events.current_event_start_offset,
          f.events.current_event_data_size⟩)).set
        (dvb_dmxdev_advance_event_idx f.events.write_index) .eos ∧
    (dvb_dmxdev_ts_event_cb f d).2.events.write_index =
      dvb_dmxdev_advance_event_idx
        (dvb_dmxdev_advance_event_idx f.events.write_index) ∧
    dvb_demux_read g false nb count env = (0, g) ∧
    dvb_demux_read g2 false true count2 [] =
      ((dvb_ringbuffer_avail g2.buffer : Int),
       { g2 with
         buffer := { g2.buffer with pread := g2.buffer.pwrite },
         events := dvb_dmxdev_update_events g2.events
           (dvb_ringbuffer_avail g2.buffer) }) ∧
    dvb_ringbuffer_empty { g2.buffer with pread := g2.buffer.pwrite } =
      true ∧
    dvb_dmxdev_ts_event_cb g3 d3 = (0, g3) ∧
    dvb_dmxdev_ts_callback g3 b1 b2 = (0, g3) := by
  obtain ⟨ha1, ha2, ha3, ha4⟩ := ts_event_cb_eos_emits_partial_chunk f d
    hst heos hout hcur hsta hm1 hm2 hb hroom1 hroom2
  obtain ⟨hc1, hc2⟩ := demux_read_eos_drains g2 count2 hst2 hd2 herr2
    hav2 hcnt2 hp2 hw2
  refine ⟨ha1, ha2, ha3, ha4, ?_, hc1, hc2, ?_, ?_⟩
  · simp [dvb_demux_read, hg, hgempty]
  · simp [dvb_dmxdev_ts_event_cb, hg3]
  · simp [dvb_dmxdev_ts_callback, hg3]

/-- Witness for C7: the spec's 40-byte window scenario on `f_rec40`,
then EOS-terminal reads on an empty buffer (`f_eos_empty`) and on a
buffer holding 5 bytes (`f_eos_data`), and ignored producer pushes. -/
theorem c7_eos_partial_chunk_then_drain_witness :
    (dvb_dmxdev_ts_event_cb f_rec40 d_eos).2.events.queue =
      (evq0.queue.set 0 (.newRecChunk ⟨0, 40⟩)).set 1 .eos ∧
    dvb_demux_read f_eos_empty false true 8 [] = (0, f_eos_empty) ∧
    dvb_demux_read f_eos_data false true 8 [] =
      ((5 : Int),
       { f_eos_data with
         buffer := { f_eos_data.buffer with pread := 5 },
         events := dvb_dmxdev_update_events f_eos_data.events 5 }) ∧
    dvb_dmxdev_ts_event_cb f_eos_data d_ok12 = (0, f_eos_data) ∧
    dvb_dmxdev_ts_callback f_eos_data [1, 2] [] = (0, f_eos_data) := by
  have h := c7_eos_partial_chunk_then_drain f_rec40 d_eos (by decide)
    (by decide) (Or.inl (by decide)) (by decide) (by decide) (by decide)
    (by decide) (by decide) (by decide) (by decide)
    f_eos_empty false 8 [] (by decide) (by decide)
    f_eos_data 8 (by decide) (by decide) (by decide) (by decide)
    (by decide) (by decide) (by decide) (by decide)
    f_eos_data d_ok12 [1, 2] [] (by decide)
  exact ⟨h.2.2.1, h.2.2.2.2.1, h.2.2.2.2.2.1, h.2.2.2.2.2.2.2.1,
    h.2.2.2.2.2.2.2.2⟩

/-! ### C8: chunked section reads -/

theorem sec_step_1 : dvb_dmxdev_read_sec f_sec true 8 =
    (8, f_sec_at 8 295) := by decide

theorem sec_step_2 : dvb_dmxdev_read_sec (f_sec_at 8 295) true 8 =
    (8, f_sec_at 16 287) := by decide

theorem sec_step_3 : dvb_dmxdev_read_sec (f_sec_at 16 287) true 8 =
    (8, f_sec_at 24 279) := by decide

theorem sec_step_4 : dvb_dmxdev_read_sec (f_sec_at 24 279) true 8 =
    (8, f_sec_at 32 271) := by decide

theorem sec_step_5 : dvb_dmxdev_read_sec (f_sec_at 32 271) true 8 =
    (8, f_sec_at 40 263) := by decide

theorem sec_step_6 : dvb_dmxdev_read_sec (f_sec_at 40 263) true 8 =
    (8, f_sec_at 48 255) := by decide

theorem sec_step_7 : dvb_dmxdev_read_sec (f_sec_at 48 255) true 8 =
    (8, f_sec_at 56 247) := by decide

theorem sec_step_8 : dvb_dmxdev_read_sec (f_sec_at 56 247) true 8 =
    (8, f_sec_at 64 239) := by decide

theorem sec_step_9 : dvb_dmxdev_read_sec (f_sec_at 64 239) true 8 =
    (8, f_sec_at 72 231) := by decide

theorem sec_step_10 : dvb_dmxdev_read_sec (f_sec_at 72 231) true 8 =
    (8, f_sec_at 80 223) := by decide

theorem sec_step_11 : dvb_dmxdev_read_sec (f_sec_at 80 223) true 8 =
    (8, f_sec_at 88 215) := by decide

theorem sec_step_12 : dvb_dmxdev_read_sec (f_sec_at 88 215) true 8 =
    (8, f_sec_at 96 207) := by decide

theorem sec_step_13 : dvb_dmxdev_read_sec (f_sec_at 96 207) true 8 =
    (8, f_sec_at 104 199) := by decide

theorem sec_step_14 : dvb_dmxdev_read_sec (f_sec_at 104 199) true 8 =
    (8, f_sec_at 112 191) := by decide

theorem sec_step_15 : dvb_dmxdev_read_sec (f_sec_at 112 191) true 8 =
    (8, f_sec_at 120 183) := by decide

theorem sec_step_16 : dvb_dmxdev_read_sec (f_sec_at 120 183) true 8 =
    (8, f_sec_at 128 175) := by decide

theorem sec_step_17 : dvb_dmxdev_read_sec (f_sec_at 128 175) true 8 =
    (8, f_sec_at 136 167) := by decide

theorem sec_step_18 : dvb_dmxdev_read_sec (f_sec_at 136 167) true 8 =
    (8, f_sec_at 144 159) := by decide

theorem sec_step_19 : dvb_dmxdev_read_sec (f_sec_at 144 159) true 8 =
    (8, f_sec_at 152 151) := by decide

theorem sec_step_20 : dvb_dmxdev_read_sec (f_sec_at 152 151) true 8 =
    (8, f_sec_at 160 143) := by decide

theorem sec_step_21 : dvb_dmxdev_read_sec (f_sec_at 160 143) true 8 =
    (8, f_sec_at 168 135) := by decide

theorem sec_step_22 : dvb_dmxdev_read_sec (f_sec_at 168 135) true 8 =
    (8, f_sec_at 176 127) := by decide

theorem sec_step_23 : dvb_dmxdev_read_sec (f_sec_at 176 127) true 8 =
    (8, f_sec_at 184 119) := by decide

theorem sec_step_24 : dvb_dmxdev_read_sec (f_sec_at 184 119) true 8 =
    (8, f_sec_at 192 111) := by decide

theorem sec_step_25 : dvb_dmxdev_read_sec (f_sec_at 192 111) true 8 =
    (8, f_sec_at 200 103) := by decide

theorem sec_step_26 : dvb_dmxdev_read_sec (f_sec_at 200 103) true 8 =
    (8, f_sec_at 208 95) := by decide

theorem sec_step_27 : dvb_dmxdev_read_sec (f_sec_at 208 95) true 8 =
    (8, f_sec_at 216 87) := by decide

theorem sec_step_28 : dvb_dmxdev_read_sec (f_sec_at 216 87) true 8 =
    (8, f_sec_at 224 79) := by decide

theorem sec_step_29 : dvb_dmxdev_read_sec (f_sec_at 224 79) true 8 =
    (8, f_sec_at 232 71) := by decide

theorem sec_step_30 : dvb_dmxdev_read_sec (f_sec_at 232 71) true 8 =
    (8, f_sec_at 240 63) := by decide

theorem sec_step_31 : dvb_dmxdev_read_sec (f_sec_at 240 63) true 8 =
    (8, f_sec_at 248 55) := by decide

theorem sec_step_32 : dvb_dmxdev_read_sec (f_sec_at 248 55) true 8 =
    (8, f_sec_at 256 47) := by decide

theorem sec_step_33 : dvb_dmxdev_read_sec (f_sec_at 256 47) true 8 =
    (8, f_sec_at 264 39) := by decide

theorem sec_step_34 : dvb_dmxdev_read_sec (f_sec_at 264 39) true 8 =
    (8, f_sec_at 272 31) := by decide

theorem sec_step_35 : dvb_dmxdev_read_sec (f_sec_at 272 31) true 8 =
    (8, f_sec_at 280 23) := by decide

theorem sec_step_36 : dvb_dmxdev_read_sec (f_sec_at 280 23) true 8 =
    (8, f_sec_at 288 15) := by decide

theorem sec_step_37 : dvb_dmxdev_read_sec (f_sec_at 288 15) true 8 =
    (8, f_sec_at 296 7) := by decide

theorem sec_step_38 : dvb_dmxdev_read_sec (f_sec_at 296 7) true 8 =
    (7, f_sec_at 303 0) := by decide

theorem sec_step_39 : dvb_dmxdev_read_sec (f_sec_at 303 0) true 8 =
    (-EWOULDBLOCK, f_sec_at 303 0) := by decide

/-- Unfold one productive 8-byte call of `sec_read_session`: the byte
count accumulates. -/
theorem sec_read_session_step_fst (fuel : Nat) (f f' : dmxdev_filter)
    (r : Int) (h : dvb_dmxdev_read_sec f true 8 = (r, f')) (hr : 0 < r) :
    (sec_read_session (fuel + 1) f).1 =
      (sec_read_session fuel f').1 + r.toNat := by
  simp [sec_read_session, h, hr.not_le]

/-- Unfold one productive 8-byte call of `sec_read_session`: the final
state is the tail's. -/
theorem sec_read_session_step_snd (fuel : Nat) (f f' : dmxdev_filter)
    (r : Int) (h : dvb_dmxdev_read_sec f true 8 = (r, f')) (hr : 0 < r) :
    (sec_read_session (fuel + 1) f).2 = (sec_read_session fuel f').2 := by
  simp [sec_read_session, h, hr.not_le]

/-- A call yielding no bytes ends the session: no bytes counted. -/
theorem sec_read_session_stop_fst (fuel : Nat) (f f' : dmxdev_filter)
    (r : Int) (h : dvb_dmxdev_read_sec f true 8 = (r, f')) (hr : r ≤ 0) :
    (sec_read_session (fuel + 1) f).1 = 0 := by
  simp [sec_read_session, h, hr]

/-- A call yielding no bytes ends the session in that call's state. -/
theorem sec_read_session_stop_snd (fuel : Nat) (f f' : dmxdev_filter)
    (r : Int) (h : dvb_dmxdev_read_sec f true 8 = (r, f')) (hr : r ≤ 0) :
    (sec_read_session (fuel + 1) f).2 = f' := by
  simp [sec_read_session, h, hr]

set_option maxHeartbeats 2000000 in
/-- C8: with the buffer holding a 3-byte section header whose length
bits encode 0x12C = 300 followed by 300 payload bytes, a caller issuing
8-byte reads receives exactly 303 bytes in total across the calls
(3 header + 300 payload), and a further read yields no more bytes from
that section (-EWOULDBLOCK). -/
theorem c8_section_read_chunked :
    (sec_read_session 40 f_sec).1 = 303 ∧
    (dvb_dmxdev_read_sec (sec_read_session 40 f_sec).2 true 8).1 =
      -EWOULDBLOCK := by
  have a1 : (sec_read_session 40 f_sec).1 =
      (sec_read_session 39 (f_sec_at 8 295)).1 + 8 :=
    sec_read_session_step_fst 39 _ _ _ sec_step_1 (by decide)
  have b1 : (sec_read_session 40 f_sec).2 =
      (sec_read_session 39 (f_sec_at 8 295)).2 :=
    sec_read_session_step_snd 39 _ _ _ sec_step_1 (by decide)
  have a2 : (sec_read_session 39 (f_sec_at 8 295)).1 =
      (sec_read_session 38 (f_sec_at 16 287)).1 + 8 :=
    sec_read_session_step_fst 38 _ _ _ sec_step_2 (by decide)
  have b2 : (sec_read_session 39 (f_sec_at 8 295)).2 =
      (sec_read_session 38 (f_sec_at 16 287)).2 :=
    sec_read_session_step_snd 38 _ _ _ sec_step_2 (by decide)
  have a3 : (sec_read_session 38 (f_sec_at 16 287)).1 =
      (sec_read_session 37 (f_sec_at 24 279)).1 + 8 :=
    sec_read_session_step_fst 37 _ _ _ sec_step_3 (by decide)
  have b3 : (sec_read_session 38 (f_sec_at 16 287)).2 =
      (sec_read_session 37 (f_sec_at 24 279)).2 :=
    sec_read_session_step_snd 37 _ _ _ sec_step_3 (by decide)
  have a4 : (sec_read_session 37 (f_sec_at 24 279)).1 =
      (sec_read_session 36 (f_sec_at 32 271)).1 + 8 :=
    sec_read_session_step_fst 36 _ _ _ sec_step_4 (by decide)
  have b4 : (sec_read_session 37 (f_sec_at 24 279)).2 =
      (sec_read_session 36 (f_sec_at 32 271)).2 :=
    sec_read_session_step_snd 36 _ _ _ sec_step_4 (by decide)
  have a5 : (sec_read_session 36 (f_sec_at 32 271)).1 =
      (sec_read_session 35 (f_sec_at 40 263)).1 + 8 :=
    sec_read_session_step_fst 35 _ _ _ sec_step_5 (by decide)
  have b5 : (sec_read_session 36 (f_sec_at 32 271)).2 =
      (sec_read_session 35 (f_sec_at 40 263)).2 :=
    sec_read_session_step_snd 35 _ _ _ sec_step_5 (by decide)
  have a6 : (sec_read_session 35 (f_sec_at 40 263)).1 =
      (sec_read_session 34 (f_sec_at 48 255)).1 + 8 :=
    sec_read_session_step_fst 34 _ _ _ sec_step_6 (by decide)
  have b6 : (sec_read_session 35 (f_sec_at 40 263)).2 =
      (sec_read_session 34 (f_sec_at 48 255)).2 :=
    sec_read_session_step_snd 34 _ _ _ sec_step_6 (by decide)
  have a7 : (sec_read_session 34 (f_sec_at 48 255)).1 =
      (sec_read_session 33 (f_sec_at 56 247)).1 + 8 :=
    sec_read_session_step_fst 33 _ _ _ sec_step_7 (by decide)
  have b7 : (sec_read_session 34 (f_sec_at 48 255)).2 =
      (sec_read_session 33 (f_sec_at 56 247)).2 :=
    sec_read_session_step_snd 33 _ _ _ sec_step_7 (by decide)
  have a8 : (sec_read_session 33 (f_sec_at 56 247)).1 =
      (sec_read_session 32 (f_sec_at 64 239)).1 + 8 :=
    sec_read_session_step_fst 32 _ _ _ sec_step_8 (by decide)
  have b8 : (sec_read_session 33 (f_sec_at 56 247)).2 =
      (sec_read_session 32 (f_sec_at 64 239)).2 :=
    sec_read_session_step_snd 32 _ _ _ sec_step_8 (by decide)
  have a9 : (sec_read_session 32 (f_sec_at 64 239)).1 =
      (sec_read_session 31 (f_sec_at 72 231)).1 + 8 :=
    sec_read_session_step_fst 31 _ _ _ sec_step_9 (by decide)
  have b9 : (sec_read_session 32 (f_sec_at 64 239)).2 =
      (sec_read_session 31 (f_sec_at 72 231)).2 :=
    sec_read_session_step_snd 31 _ _ _ sec_step_9 (by decide)
  have a10 : (sec_read_session 31 (f_sec_at 72 231)).1 =
      (sec_read_session 30 (f_sec_at 80 223)).1 + 8 :=
    sec_read_session_step_fst 30 _ _ _ sec_step_10 (by decide)
  have b10 : (sec_read_session 31 (f_sec_at 72 231)).2 =
      (sec_read_session 30 (f_sec_at 80 223)).2 :=
    sec_read_session_step_snd 30 _ _ _ sec_step_10 (by decide)
  have a11 : (sec_read_session 30 (f_sec_at 80 223)).1 =
      (sec_read_session 29 (f_sec_at 88 215)).1 + 8 :=
    sec_read_session_step_fst 29 _ _ _ sec_step_11 (by decide)
  have b11 : (sec_read_session 30 (f_sec_at 80 223)).2 =
      (sec_read_session 29 (f_sec_at 88 215)).2 :=
    sec_read_session_step_snd 29 _ _ _ sec_step_11 (by decide)
  have a12 : (sec_read_session 29 (f_sec_at 88 215)).1 =
      (sec_read_session 28 (f_sec_at 96 207)).1 + 8 :=
    sec_read_session_step_fst 28 _ _ _ sec_step_12 (by decide)
  have b12 : (sec_read_session 29 (f_sec_at 88 215)).2 =
      (sec_read_session 28 (f_sec_at 96 207)).2 :=
    sec_read_session_step_snd 28 _ _ _ sec_step_12 (by decide)
  have a13 : (sec_read_session 28 (f_sec_at 96 207)).1 =
      (sec_read_session 27 (f_sec_at 104 199)).1 + 8 :=
    sec_read_session_step_fst 27 _ _ _ sec_step_13 (by decide)
  have b13 : (sec_read_session 28 (f_sec_at 96 207)).2 =
      (sec_read_session 27 (f_sec_at 104 199)).2 :=
    sec_read_session_step_snd 27 _ _ _ sec_step_13 (by decide)
  have a14 : (sec_read_session 27 (f_sec_at 104 199)).1 =
      (sec_read_session 26 (f_sec_at 112 191)).1 + 8 :=
    sec_read_session_step_fst 26 _ _ _ sec_step_14 (by decide)
  have b14 : (sec_read_session 27 (f_sec_at 104 199)).2 =
      (sec_read_session 26 (f_sec_at 112 191)).2 :=
    sec_read_session_step_snd 26 _ _ _ sec_step_14 (by decide)
  have a15 : (sec_read_session 26 (f_sec_at 112 191)).1 =
      (sec_read_session 25 (f_sec_at 120 183)).1 + 8 :=
    sec_read_session_step_fst 25 _ _ _ sec_step_15 (by decide)
  have b15 : (sec_read_session 26 (f_sec_at 112 191)).2 =
      (sec_read_session 25 (f_sec_at 120 183)).2 :=
    sec_read_session_step_snd 25 _ _ _ sec_step_15 (by decide)
  have a16 : (sec_read_session 25 (f_sec_at 120 183)).1 =
      (sec_read_session 24 (f_sec_at 128 175)).1 + 8 :=
    sec_read_session_step_fst 24 _ _ _ sec_step_16 (by decide)
  have b16 : (sec_read_session 25 (f_sec_at 120 183)).2 =
      (sec_read_session 24 (f_sec_at 128 175)).2 :=
    sec_read_session_step_snd 24 _ _ _ sec_step_16 (by decide)
  have a17 : (sec_read_session 24 (f_sec_at 128 175)).1 =
      (sec_read_session 23 (f_sec_at 136 167)).1 + 8 :=
    sec_read_session_step_fst 23 _ _ _ sec_step_17 (by decide)
  have b17 : (sec_read_session 24 (f_sec_at 128 175)).2 =
      (sec_read_session 23 (f_sec_at 136 167)).2 :=
    sec_read_session_step_snd 23 _ _ _ sec_step_17 (by decide)
  have a18 : (sec_read_session 23 (f_sec_at 136 167)).1 =
      (sec_read_session 22 (f_sec_at 144 159)).1 + 8 :=
    sec_read_session_step_fst 22 _ _ _ sec_step_18 (by decide)
  have b18 : (sec_read_session 23 (f_sec_at 136 167)).2 =
      (sec_read_session 22 (f_sec_at 144 159)).2 :=
    sec_read_session_step_snd 22 _ _ _ sec_step_18 (by decide)
  have a19 : (sec_read_session 22 (f_sec_at 144 159)).1 =
      (sec_read_session 21 (f_sec_at 152 151)).1 + 8 :=
    sec_read_session_step_fst 21 _ _ _ sec_step_19 (by decide)
  have b19 : (sec_read_session 22 (f_sec_at 144 159)).2 =
      (sec_read_session 21 (f_sec_at 152 151)).2 :=
    sec_read_session_step_snd 21 _ _ _ sec_step_19 (by decide)
  have a20 : (sec_read_session 21 (f_sec_at 152 151)).1 =
      (sec_read_session 20 (f_sec_at 160 143)).1 + 8 :=
    sec_read_session_step_fst 20 _ _ _ sec_step_20 (by decide)
  have b20 : (sec_read_session 21 (f_sec_at 152 151)).2 =
      (sec_read_session 20 (f_sec_at 160 143)).2 :=
    sec_read_session_step_snd 20 _ _ _ sec_step_20 (by decide)
  have a21 : (sec_read_session 20 (f_sec_at 160 143)).1 =
      (sec_read_session 19 (f_sec_at 168 135)).1 + 8 :=
    sec_read_session_step_fst 19 _ _ _ sec_step_21 (by decide)
  have b21 : (sec_read_session 20 (f_sec_at 160 143)).2 =
      (sec_read_session 19 (f_sec_at 168 135)).2 :=
    sec_read_session_step_snd 19 _ _ _ sec_step_21 (by decide)
  have a22 : (sec_read_session 19 (f_sec_at 168 135)).1 =
      (sec_read_session 18 (f_sec_at 176 127)).1 + 8 :=
    sec_read_session_step_fst 18 _ _ _ sec_step_22 (by decide)
  have b22 : (sec_read_session 19 (f_sec_at 168 135)).2 =
      (sec_read_session 18 (f_sec_at 176 127)).2 :=
    sec_read_session_step_snd 18 _ _ _ sec_step_22 (by decide)
  have a23 : (sec_read_session 18 (f_sec_at 176 127)).1 =
      (sec_read_session 17 (f_sec_at 184 119)).1 + 8 :=
    sec_read_session_step_fst 17 _ _ _ sec_step_23 (by decide)
  have b23 : (sec_read_session 18 (f_sec_at 176 127)).2 =
      (sec_read_session 17 (f_sec_at 184 119)).2 :=
    sec_read_session_step_snd 17 _ _ _ sec_step_23 (by decide)
  have a24 : (sec_read_session 17 (f_sec_at 184 119)).1 =
      (sec_read_session 16 (f_sec_at 192 111)).1 + 8 :=
    sec_read_session_step_fst 16 _ _ _ sec_step_24 (by decide)
  have b24 : (sec_read_session 17 (f_sec_at 184 119)).2 =
      (sec_read_session 16 (f_sec_at 192 111)).2 :=
    sec_read_session_step_snd 16 _ _ _ sec_step_24 (by decide)
  have a25 : (sec_read_session 16 (f_sec_at 192 111)).1 =
      (sec_read_session 15 (f_sec_at 200 103)).1 + 8 :=
    sec_read_session_step_fst 15 _ _ _ sec_step_25 (by decide)
  have b25 : (sec_read_session 16 (f_sec_at 192 111)).2 =
      (sec_read_session 15 (f_sec_at 200 103)).2 :=
    sec_read_session_step_snd 15 _ _ _ sec_step_25 (by decide)
  have a26 : (sec_read_session 15 (f_sec_at 200 103)).1 =
      (sec_read_session 14 (f_sec_at 208 95)).1 + 8 :=
    sec_read_session_step_fst 14 _ _ _ sec_step_26 (by decide)
  have b26 : (sec_read_session 15 (f_sec_at 200 103)).2 =
      (sec_read_session 14 (f_sec_at 208 95)).2 :=
    sec_read_session_step_snd 14 _ _ _ sec_step_26 (by decide)
  have a27 : (sec_read_session 14 (f_sec_at 208 95)).1 =
      (sec_read_session 13 (f_sec_at 216 87)).1 + 8 :=
    sec_read_session_step_fst 13 _ _ _ sec_step_27 (by decide)
  have b27 : (sec_read_session 14 (f_sec_at 208 95)).2 =
      (sec_read_session 13 (f_sec_at 216 87)).2 :=
    sec_read_session_step_snd 13 _ _ _ sec_step_27 (by decide)
  have a28 : (sec_read_session 13 (f_sec_at 216 87)).1 =
      (sec_read_session 12 (f_sec_at 224 79)).1 + 8 :=
    sec_read_session_step_fst 12 _ _ _ sec_step_28 (by decide)
  have b28 : (sec_read_session 13 (f_sec_at 216 87)).2 =
      (sec_read_session 12 (f_sec_at 224 79)).2 :=
    sec_read_session_step_snd 12 _ _ _ sec_step_28 (by decide)
  have a29 : (sec_read_session 12 (f_sec_at 224 79)).1 =
      (sec_read_session 11 (f_sec_at 232 71)).1 + 8 :=
    sec_read_session_step_fst 11 _ _ _ sec_step_29 (by decide)
  have b29 : (sec_read_session 12 (f_sec_at 224 79)).2 =
      (sec_read_session 11 (f_sec_at 232 71)).2 :=
    sec_read_session_step_snd 11 _ _ _ sec_step_29 (by decide)
  have a30 : (sec_read_session 11 (f_sec_at 232 71)).1 =
      (sec_read_session 10 (f_sec_at 240 63)).1 + 8 :=
    sec_read_session_step_fst 10 _ _ _ sec_step_30 (by decide)
  have b30 : (sec_read_session 11 (f_sec_at 232 71)).2 =
      (sec_read_session 10 (f_sec_at 240 63)).2 :=
    sec_read_session_step_snd 10 _ _ _ sec_step_30 (by decide)
  have a31 : (sec_read_session 10 (f_sec_at 240 63)).1 =
      (sec_read_session 9 (f_sec_at 248 55)).1 + 8 :=
    sec_read_session_step_fst 9 _ _ _ sec_step_31 (by decide)
  have b31 : (sec_read_session 10 (f_sec_at 240 63)).2 =
      (sec_read_session 9 (f_sec_at 248 55)).2 :=
    sec_read_session_step_snd 9 _ _ _ sec_step_31 (by decide)
  have a32 : (sec_read_session 9 (f_sec_at 248 55)).1 =
      (sec_read_session 8 (f_sec_at 256 47)).1 + 8 :=
    sec_read_session_step_fst 8 _ _ _ sec_step_32 (by decide)
  have b32 : (sec_read_session 9 (f_sec_at 248 55)).2 =
      (sec_read_session 8 (f_sec_at 256 47)).2 :=
    sec_read_session_step_snd 8 _ _ _ sec_step_32 (by decide)
  have a33 : (sec_read_session 8 (f_sec_at 256 47)).1 =
      (sec_read_session 7 (f_sec_at 264 39)).1 + 8 :=
    sec_read_session_step_fst 7 _ _ _ sec_step_33 (by decide)
  have b33 : (sec_read_session 8 (f_sec_at 256 47)).2 =
      (sec_read_session 7 (f_sec_at 264 39)).2 :=
    sec_read_session_step_snd 7 _ _ _ sec_step_33 (by decide)
  have a34 : (sec_read_session 7 (f_sec_at 264 39)).1 =
      (sec_read_session 6 (f_sec_at 272 31)).1 + 8 :=
    sec_read_session_step_fst 6 _ _ _ sec_step_34 (by decide)
  have b34 : (sec_read_session 7 (f_sec_at 264 39)).2 =
      (sec_read_session 6 (f_sec_at 272 31)).2 :=
    sec_read_session_step_snd 6 _ _ _ sec_step_34 (by decide)
  have a35 : (sec_read_session 6 (f_sec_at 272 31)).1 =
      (sec_read_session 5 (f_sec_at 280 23)).1 + 8 :=
    sec_read_session_step_fst 5 _ _ _ sec_step_35 (by decide)
  have b35 : (sec_read_session 6 (f_sec_at 272 31)).2 =
      (sec_read_session 5 (f_sec_at 280 23)).2 :=
    sec_read_session_step_snd 5 _ _ _ sec_step_35 (by decide)
  have a36 : (sec_read_session 5 (f_sec_at 280 23)).1 =
      (sec_read_session 4 (f_sec_at 288 15)).1 + 8 :=
    sec_read_session_step_fst 4 _ _ _ sec_step_36 (by decide)
  have b36 : (sec_read_session 5 (f_sec_at 280 23)).2 =
      (sec_read_session 4 (f_sec_at 288 15)).2 :=
    sec_read_session_step_snd 4 _ _ _ sec_step_36 (by decide)
  have a37 : (sec_read_session 4 (f_sec_at 288 15)).1 =
      (sec_read_session 3 (f_sec_at 296 7)).1 + 8 :=
    sec_read_session_step_fst 3 _ _ _ sec_step_37 (by decide)
  have b37 : (sec_read_session 4 (f_sec_at 288 15)).2 =
      (sec_read_session 3 (f_sec_at 296 7)).2 :=
    sec_read_session_step_snd 3 _ _ _ sec_step_37 (by decide)
  have a38 : (sec_read_session 3 (f_sec_at 296 7)).1 =
      (sec_read_session 2 (f_sec_at 303 0)).1 + 7 :=
    sec_read_session_step_fst 2 _ _ _ sec_step_38 (by decide)
  have b38 : (sec_read_session 3 (f_sec_at 296 7)).2 =
      (sec_read_session 2 (f_sec_at 303 0)).2 :=
    sec_read_session_step_snd 2 _ _ _ sec_step_38 (by decide)
  have a39 : (sec_read_session 2 (f_sec_at 303 0)).1 = 0 :=
    sec_read_session_stop_fst 1 _ _ _ sec_step_39 (by decide)
  have b39 : (sec_read_session 2 (f_sec_at 303 0)).2 = f_sec_at 303 0 :=
    sec_read_session_stop_snd 1 _ _ _ sec_step_39 (by decide)
  constructor
  · rw [a1, a2, a3, a4, a5, a6, a7, a8, a9, a10, a11, a12, a13, a14, a15, a16, a17, a18, a19, a20, a21, a22, a23, a24, a25, a26, a27, a28, a29, a30, a31, a32, a33, a34, a35, a36, a37, a38, a39]
  · rw [b1, b2, b3, b4, b5, b6, b7, b8, b9, b10, b11, b12, b13, b14, b15, b16, b17, b18, b19, b20, b21, b22, b23, b24, b25, b26, b27, b28, b29, b30, b31, b32, b33, b34, b35, b36, b37, b38, b39, sec_step_39]
